import Mathlib

/-!
# Verification of the face-filter camera core

A shallow embedding, in Lean 4, of the adaptive rendering core of the
face-filter camera repository:

* `src/src/utils/mathUtils.js` / `viewportUtils.js` — geometry utilities
  (`getFacePoints`, `getFaceDimensions`, `isInViewport`,
  `shouldCullAnimation`, `bilinearSample`);
* `src/src/filters/MorphFilter.js` — the inverse-warp morph engine
  (`calculateProcessingRegion`, the three influence functions and
  `inverseTransformPoint`);
* `src/src/filters/FilterRenderer.js` — the per-face render dispatch with
  viewport culling;
* `PerformanceManager` (in `src/unnamed/part_004`) — FPS driven tier /
  skip-interval controller, quality settings, face interpolation;
* `src/src/config/constants.js` — the configuration constants.

Modelling conventions:

* JavaScript numbers are modelled as exact rationals.  Where the code can
  divide by zero (the morph influence functions) we use `JSNum`, rationals
  extended with `nan` / `inf` / `ninf`, with JavaScript's IEEE-754 rules for
  those special values (`0/0 = NaN`, `q/0 = ±∞`, any comparison with `NaN`
  is `false`, `Math.max(x, NaN) = NaN`, `∞ · 0 = NaN`, …).  Rounding of
  finite float arithmetic is idealised away (exact rational arithmetic);
  the sign of JavaScript's `-0` is not modelled (every divisor of the form
  `|…| * c` in this code is a non-negative zero).
* The transcendental library calls (`Math.sqrt`, `Math.cos`, `Math.pow`
  with fractional exponent, `Math.PI`) are float routines whose exact
  values none of the verified properties depend on.  They are supplied by
  a `JSMath` parameter: any implementation satisfying the listed
  uncontroversial facts about the corresponding JavaScript functions
  (sign preservation for `sqrt`, `cos` of a finite number is a finite
  number in `[-1, 1]`, `NaN` propagation, …).  `jsMathModel` is one
  computable instance, used to evaluate concrete witnesses.
* JavaScript array indexing `a[i]` returns `undefined` out of range; we
  model a possibly-missing value as `Option`.  Dereferencing `undefined`
  (`undefined[0]`) throws a `TypeError`; a computation that can throw is
  modelled with `Option` (`none` = exception).
-/

/-- JavaScript number: an exact rational, or one of the IEEE-754 special
values `NaN`, `+Infinity`, `-Infinity` produced by division by zero. -/
inductive JSNum where
  | num (q : ℚ)
  | nan
  | inf
  | ninf
deriving DecidableEq, Repr

namespace JSNum

/-- JavaScript `+` on numbers (IEEE-754 addition, exact on the rationals). -/
def add : JSNum → JSNum → JSNum
  | nan, _ => nan
  | _, nan => nan
  | inf, ninf => nan
  | ninf, inf => nan
  | inf, _ => inf
  | _, inf => inf
  | ninf, _ => ninf
  | _, ninf => ninf
  | num a, num b => num (a + b)

/-- JavaScript unary minus. -/
def neg : JSNum → JSNum
  | nan => nan
  | inf => ninf
  | ninf => inf
  | num a => num (-a)

/-- JavaScript `-` on numbers. -/
def sub (a b : JSNum) : JSNum := add a (neg b)

/-- JavaScript `*` on numbers; `±∞ · 0 = NaN`. -/
def mul : JSNum → JSNum → JSNum
  | nan, _ => nan
  | _, nan => nan
  | inf, inf => inf
  | inf, ninf => ninf
  | ninf, inf => ninf
  | ninf, ninf => inf
  | inf, num b => if 0 < b then inf else if b < 0 then ninf else nan
  | num a, inf => if 0 < a then inf else if a < 0 then ninf else nan
  | ninf, num b => if 0 < b then ninf else if b < 0 then inf else nan
  | num a, ninf => if 0 < a then ninf else if a < 0 then inf else nan
  | num a, num b => num (a * b)

/-- JavaScript `/` on numbers: `0/0 = NaN`, `a/0 = ±∞` for `a ≠ 0`
(the divisor zeros reached in this code are positive zeros). -/
def div : JSNum → JSNum → JSNum
  | nan, _ => nan
  | _, nan => nan
  | inf, inf => nan
  | inf, ninf => nan
  | ninf, inf => nan
  | ninf, ninf => nan
  | inf, num b => if b < 0 then ninf else inf
  | ninf, num b => if b < 0 then inf else ninf
  | num _, inf => num 0
  | num _, ninf => num 0
  | num a, num b =>
    if b = 0 then (if 0 < a then inf else if a < 0 then ninf else nan)
    else num (a / b)

/-- JavaScript `Math.max` on two numbers: `NaN` if either argument is `NaN`. -/
def maxJ : JSNum → JSNum → JSNum
  | nan, _ => nan
  | _, nan => nan
  | inf, _ => inf
  | _, inf => inf
  | ninf, b => b
  | a, ninf => a
  | num a, num b => num (max a b)

/-- JavaScript `<` on numbers: any comparison involving `NaN` is `false`. -/
def ltb : JSNum → JSNum → Bool
  | nan, _ => false
  | _, nan => false
  | inf, _ => false
  | ninf, ninf => false
  | ninf, _ => true
  | num _, inf => true
  | num _, ninf => false
  | num a, num b => a < b

/-- JavaScript `>` on numbers. -/
def gtb (a b : JSNum) : Bool := ltb b a

end JSNum

/-- The float library routines used by `MorphFilter.js` (`Math.sqrt`,
`Math.cos`, `Math.pow` with a fractional exponent, `Math.PI`), abstracted
as any implementation satisfying these facts about the JavaScript
functions.  None of the verified properties depend on rounding, only on
these sign/range/NaN-propagation facts. -/
structure JSMath where
  sqrt : JSNum → JSNum
  cos : JSNum → JSNum
  pow : JSNum → ℚ → JSNum
  pi : ℚ
  sqrt_nan : sqrt JSNum.nan = JSNum.nan
  sqrt_inf : sqrt JSNum.inf = JSNum.inf
  sqrt_zero : sqrt (JSNum.num 0) = JSNum.num 0
  sqrt_pos : ∀ q : ℚ, 0 < q → ∃ r : ℚ, 0 < r ∧ sqrt (JSNum.num q) = JSNum.num r
  cos_nan : cos JSNum.nan = JSNum.nan
  cos_num : ∀ q : ℚ, ∃ r : ℚ, r ∈ Set.Icc (-1 : ℚ) 1 ∧ cos (JSNum.num q) = JSNum.num r
  pow_nan : ∀ e : ℚ, pow JSNum.nan e = JSNum.nan
  pow_num : ∀ (q e : ℚ), (∃ r : ℚ, pow (JSNum.num q) e = JSNum.num r) ∨
      pow (JSNum.num q) e = JSNum.nan
  pi_pos : 0 < pi

/-- A computable `JSMath` instance (values chosen only to satisfy the
contracts; used to evaluate concrete witnesses). -/
def jsMathModel : JSMath where
  sqrt
    | JSNum.num q => if q < 0 then JSNum.nan else JSNum.num q
    | JSNum.nan => JSNum.nan
    | JSNum.inf => JSNum.inf
    | JSNum.ninf => JSNum.nan
  cos
    | JSNum.num _ => JSNum.num 1
    | _ => JSNum.nan
  pow b _ :=
    match b with
    | JSNum.num q => if q < 0 then JSNum.nan else JSNum.num q
    | JSNum.nan => JSNum.nan
    | JSNum.inf => JSNum.inf
    | JSNum.ninf => JSNum.nan
  pi := 3.141592653589793
  sqrt_nan := rfl
  sqrt_inf := rfl
  sqrt_zero := by norm_num
  sqrt_pos := fun q hq => ⟨q, hq, by simp [not_lt.mpr hq.le]⟩
  cos_nan := rfl
  cos_num := fun q => ⟨1, by norm_num, rfl⟩
  pow_nan := fun _ => rfl
  pow_num := fun q e => by
    by_cases h : q < 0
    · exact Or.inr (by simp [h])
    · exact Or.inl ⟨q, by simp [h]⟩
  pi_pos := by norm_num

/-! ## Configuration constants (`src/src/config/constants.js`) -/

/-- The `MORPH.EYE_REGION_MULTIPLIER` (constants.js line 139). -/
def MORPH_EYE_REGION_MULTIPLIER : ℚ := 1.2

/-- The `MORPH.EYE_EXTREME_MULTIPLIER` (constants.js line 140). -/
def MORPH_EYE_EXTREME_MULTIPLIER : ℚ := 1.3

/-- The `MORPH.MOUTH_REGION_MULTIPLIER` (constants.js line 141). -/
def MORPH_MOUTH_REGION_MULTIPLIER : ℚ := 0.9

/-- The `MORPH.MOUTH_EXTREME_MULTIPLIER` (constants.js line 142). -/
def MORPH_MOUTH_EXTREME_MULTIPLIER : ℚ := 1.4

/-- The `MORPH.FACE_WIDTH_INFLUENCE` (constants.js line 143). -/
def MORPH_FACE_WIDTH_INFLUENCE : ℚ := 0.6

/-- The `MORPH.FACE_HEIGHT_INFLUENCE` (constants.js line 144). -/
def MORPH_FACE_HEIGHT_INFLUENCE : ℚ := 0.6

/-- The `MORPH.FACE_SLIM_INTENSITY` (constants.js line 145). -/
def MORPH_FACE_SLIM_INTENSITY : ℚ := 0.8

/-- The `CULLING.MAX_FILTER_RADIUS_MULTIPLIER` (constants.js line 254). -/
def CULLING_MAX_FILTER_RADIUS_MULTIPLIER : ℚ := 0.8

/-- The three performance levels (`'high' | 'medium' | 'low'`). -/
inductive PerfLevel where
  | high
  | medium
  | low
deriving DecidableEq, Repr

/-- One per-tier bundle of `MORPH.HIGH / MEDIUM / LOW` (constants.js
lines 108-138; only the fields the verified code reads). -/
structure MorphConfig where
  intensity : ℚ
  eyeScaleFactor : ℚ
  mouthScaleFactor : ℚ
  faceSlimFactor : ℚ
  jawReductionFactor : ℚ
  paddingMultiplier : ℚ
  faceMultiplier : ℚ
  heightMultiplier : ℚ

/-- The `MORPH[performanceLevel.toUpperCase()]` for the three valid levels. -/
def MORPH_CONFIG : PerfLevel → MorphConfig
  | PerfLevel.high =>
    { intensity := 1.0, eyeScaleFactor := 2.5, mouthScaleFactor := 2.2
      faceSlimFactor := 0.85, jawReductionFactor := 0.9
      paddingMultiplier := 0.8, faceMultiplier := 1.2, heightMultiplier := 1.3 }
  | PerfLevel.medium =>
    { intensity := 0.9, eyeScaleFactor := 2.0, mouthScaleFactor := 1.8
      faceSlimFactor := 0.88, jawReductionFactor := 0.92
      paddingMultiplier := 0.6, faceMultiplier := 1.0, heightMultiplier := 1.1 }
  | PerfLevel.low =>
    { intensity := 0.8, eyeScaleFactor := 1.6, mouthScaleFactor := 1.4
      faceSlimFactor := 0.9, jawReductionFactor := 0.95
      paddingMultiplier := 0.4, faceMultiplier := 0.8, heightMultiplier := 0.9 }

/-! ## Morph engine (`src/src/filters/MorphFilter.js`) -/

/-- The `MorphFilter` instance fields read by the influence /
inverse-transform methods (`this.intensity`, `this.eyeScaleFactor`,
`this.mouthScaleFactor`, `this.faceSlimFactor`), set from `MORPH` config
by `adjustForPerformance`. -/
structure MorphParams where
  intensity : ℚ
  eyeScaleFactor : ℚ
  mouthScaleFactor : ℚ
  faceSlimFactor : ℚ

/-- The `MorphFilter.adjustForPerformance` (MorphFilter.js lines 127-136),
restricted to the fields the transform reads. -/
def adjustForPerformance (level : PerfLevel) : MorphParams :=
  { intensity := (MORPH_CONFIG level).intensity
    eyeScaleFactor := (MORPH_CONFIG level).eyeScaleFactor
    mouthScaleFactor := (MORPH_CONFIG level).mouthScaleFactor
    faceSlimFactor := (MORPH_CONFIG level).faceSlimFactor }

/-- The landmark object built by `MorphFilter.getMorphingLandmarks`
(MorphFilter.js lines 161-188).  Each point is the `[x, y]` prefix of a
mesh entry (the transform reads only indices 0 and 1).  Fields that the
code explicitly guards against being absent (`mouthCenter` starts as
`null`; `mouthTopCenter` / `mouthBottomCenter` are tested before use)
are `Option`; the remaining fields are required — the claims about the
transform quantify over landmark sets in which they are present. -/
structure MorphLandmarks where
  leftEyeCenter : ℚ × ℚ
  rightEyeCenter : ℚ × ℚ
  leftEyeInner : ℚ × ℚ
  leftEyeOuter : ℚ × ℚ
  faceLeft : ℚ × ℚ
  faceRight : ℚ × ℚ
  chinTip : ℚ × ℚ
  foreheadCenter : ℚ × ℚ
  mouthLeftCorner : ℚ × ℚ
  mouthRightCorner : ℚ × ℚ
  mouthTopCenter : Option (ℚ × ℚ)
  mouthBottomCenter : Option (ℚ × ℚ)
  mouthCenter : Option (ℚ × ℚ)

/-- The `MorphFilter.calculateEyeInfluence` (MorphFilter.js lines 247-264).
`Math.pow(d, 2)` is embedded as exact squaring; the `if (!eyeCenter)
return 0` guard of the source is vacuous here because the claims supply
a present eye centre.  The `0.7` exponent of the extreme regime is kept
as the literal second argument of `pow`. -/
def calculateEyeInfluence (jm : JSMath) (p : MorphParams) (x y : ℚ)
    (eyeCenter : ℚ × ℚ) (lm : MorphLandmarks) : JSNum :=
  let distance := jm.sqrt (JSNum.num ((x - eyeCenter.1) ^ 2 + (y - eyeCenter.2) ^ 2))
  let baseEyeRadius := |lm.leftEyeOuter.1 - lm.leftEyeInner.1| * MORPH_EYE_REGION_MULTIPLIER
  let eyeRadius := baseEyeRadius *
    (if 2 < p.eyeScaleFactor then MORPH_EYE_EXTREME_MULTIPLIER else 1)
  if JSNum.gtb distance (JSNum.num eyeRadius) then JSNum.num 0
  else
    let normalizedDistance := JSNum.div distance (JSNum.num eyeRadius)
    let angle := JSNum.div (JSNum.mul normalizedDistance (JSNum.num jm.pi)) (JSNum.num 2)
    if 2 < p.eyeScaleFactor then jm.pow (jm.cos angle) 0.7 else jm.cos angle

/-- The `MorphFilter.calculateFaceSlimInfluence` (MorphFilter.js lines
269-289). -/
def calculateFaceSlimInfluence (x y : ℚ) (lm : MorphLandmarks) : JSNum :=
  let faceWidth := |lm.faceRight.1 - lm.faceLeft.1|
  let faceHeight := |lm.foreheadCenter.2 - lm.chinTip.2|
  let faceCenter := (lm.faceLeft.1 + lm.faceRight.1) / 2
  let faceCenterY := (lm.foreheadCenter.2 + lm.chinTip.2) / 2
  let distanceFromCenterX := |x - faceCenter|
  let distanceFromCenterY := |y - faceCenterY|
  if faceWidth * MORPH_FACE_WIDTH_INFLUENCE < distanceFromCenterX ∨
      faceHeight * MORPH_FACE_HEIGHT_INFLUENCE < distanceFromCenterY then
    JSNum.num 0
  else
    let horizontalInfluence := JSNum.maxJ (JSNum.num 0)
      (JSNum.sub (JSNum.num 1)
        (JSNum.div (JSNum.num distanceFromCenterX) (JSNum.num (faceWidth * 0.3))))
    let verticalInfluence := JSNum.maxJ (JSNum.num 0)
      (JSNum.sub (JSNum.num 1)
        (JSNum.div (JSNum.num distanceFromCenterY) (JSNum.num (faceHeight * 0.6))))
    JSNum.mul (JSNum.mul horizontalInfluence verticalInfluence)
      (JSNum.num MORPH_FACE_SLIM_INTENSITY)

/-- The `MorphFilter.calculateMouthInfluence` (MorphFilter.js lines 294-321).
The source's unused `distance` local is omitted; its `if (!mouthCenter ||
!landmarks.mouthLeftCorner || !landmarks.mouthRightCorner) return 0`
guard reduces to the `mouthCenter` test because the corners are required
fields here. -/
def calculateMouthInfluence (jm : JSMath) (p : MorphParams) (x y : ℚ)
    (mouthCenter : Option (ℚ × ℚ)) (lm : MorphLandmarks) : JSNum :=
  match mouthCenter with
  | none => JSNum.num 0
  | some mc =>
    let mouthWidth := |lm.mouthRightCorner.1 - lm.mouthLeftCorner.1|
    let mouthHeight :=
      match lm.mouthBottomCenter, lm.mouthTopCenter with
      | some b, some t => |b.2 - t.2|
      | _, _ => mouthWidth * 0.3
    let scaleMultiplier :=
      if 1.8 < p.mouthScaleFactor then MORPH_MOUTH_EXTREME_MULTIPLIER else 1
    let mouthRadiusX := mouthWidth * MORPH_MOUTH_REGION_MULTIPLIER * scaleMultiplier
    let mouthRadiusY := max (mouthHeight * 1.5) (mouthWidth * 0.5) * scaleMultiplier
    let normalizedX := JSNum.div (JSNum.num (x - mc.1)) (JSNum.num mouthRadiusX)
    let normalizedY := JSNum.div (JSNum.num (y - mc.2)) (JSNum.num mouthRadiusY)
    let ellipticalDistance :=
      jm.sqrt (JSNum.add (JSNum.mul normalizedX normalizedX)
        (JSNum.mul normalizedY normalizedY))
    if JSNum.gtb ellipticalDistance (JSNum.num 1) then JSNum.num 0
    else
      let angle := JSNum.div (JSNum.mul ellipticalDistance (JSNum.num jm.pi)) (JSNum.num 2)
      if 1.8 < p.mouthScaleFactor then jm.pow (jm.cos angle) 0.6 else jm.cos angle

/-- The scale-reversal block of `inverseTransformPoint`, written out three
times in the source for left eye (MorphFilter.js lines 211-218), right eye
(lines 220-227) and mouth (lines 232-239): when the influence compares
`> 0`, shrink the running point toward the centre by
`1 / (1 + (scaleFactor − 1) · influence · intensity)`. -/
def scaleReversal (intensity : ℚ) (influence : JSNum) (scaleFactor : ℚ)
    (center : ℚ × ℚ) (cur : JSNum × JSNum) : JSNum × JSNum :=
  if JSNum.gtb influence (JSNum.num 0) then
    let scale := JSNum.add (JSNum.num 1)
      (JSNum.mul (JSNum.mul (JSNum.num (scaleFactor - 1)) influence)
        (JSNum.num intensity))
    let shrinkFactor := JSNum.div (JSNum.num 1) scale
    (JSNum.add (JSNum.num center.1)
      (JSNum.mul (JSNum.sub cur.1 (JSNum.num center.1)) shrinkFactor),
     JSNum.add (JSNum.num center.2)
      (JSNum.mul (JSNum.sub cur.2 (JSNum.num center.2)) shrinkFactor))
  else cur

/-- The `MorphFilter.inverseTransformPoint` (MorphFilter.js lines 193-242):
face slim, then left eye, right eye, mouth, each applied to the running
`(newX, newY)` when its influence compares `> 0`.  A `null` mouth centre
makes the mouth influence `0`, so the dereference of `mouthCenter` inside
the guarded branch is modelled as a match whose `none` arm is dead code. -/
def inverseTransformPoint (jm : JSMath) (p : MorphParams) (x y : ℚ)
    (lm : MorphLandmarks) : JSNum × JSNum :=
  let newX := JSNum.num x
  let newY := JSNum.num y
  let faceCenter := (lm.faceLeft.1 + lm.faceRight.1) / 2
  let faceInfluence := calculateFaceSlimInfluence x y lm
  let newX :=
    if JSNum.gtb faceInfluence (JSNum.num 0) then
      let compressionFactor := JSNum.sub (JSNum.num 1)
        (JSNum.mul (JSNum.mul (JSNum.num (1 - p.faceSlimFactor)) faceInfluence)
          (JSNum.num p.intensity))
      let expansionFactor := JSNum.div (JSNum.num 1) compressionFactor
      JSNum.add (JSNum.num faceCenter)
        (JSNum.mul (JSNum.sub newX (JSNum.num faceCenter)) expansionFactor)
    else newX
  let leftEyeInfluence := calculateEyeInfluence jm p x y lm.leftEyeCenter lm
  let rightEyeInfluence := calculateEyeInfluence jm p x y lm.rightEyeCenter lm
  let cur := scaleReversal p.intensity leftEyeInfluence p.eyeScaleFactor
    lm.leftEyeCenter (newX, newY)
  let cur := scaleReversal p.intensity rightEyeInfluence p.eyeScaleFactor
    lm.rightEyeCenter cur
  let mouthInfluence := calculateMouthInfluence jm p x y lm.mouthCenter lm
  match lm.mouthCenter with
  | some mc => scaleReversal p.intensity mouthInfluence p.mouthScaleFactor mc cur
  | none => cur

/-- The axis-aligned processing rectangle returned by
`MorphFilter.calculateProcessingRegion`. -/
structure Region where
  minX : ℤ
  minY : ℤ
  width : ℤ
  height : ℤ
deriving DecidableEq, Repr

/-- The `MorphFilter.calculateProcessingRegion` (MorphFilter.js lines
141-156).  Canvas dimensions are the integer `canvas.width/height`. -/
def calculateProcessingRegion (eyeCenter : ℚ × ℚ) (faceWidth faceHeight : ℚ)
    (canvasWidth canvasHeight : ℤ) (performanceLevel : PerfLevel) : Region :=
  let config := MORPH_CONFIG performanceLevel
  let padding := max faceWidth faceHeight * config.paddingMultiplier
  let minX := max 0 ⌊eyeCenter.1 - faceWidth * config.faceMultiplier - padding⌋
  let maxX := min canvasWidth ⌈eyeCenter.1 + faceWidth * config.faceMultiplier + padding⌉
  let minY := max 0 ⌊eyeCenter.2 - faceHeight * config.heightMultiplier - padding⌋
  let maxY := min canvasHeight ⌈eyeCenter.2 + faceHeight * config.heightMultiplier + padding⌉
  { minX := minX, minY := minY, width := maxX - minX, height := maxY - minY }

/-- A canvas pixel surface: RGBA value at each integer coordinate. -/
def Canvas : Type := ℤ → ℤ → ℚ × ℚ × ℚ × ℚ

/-- The write-back skeleton of `MorphFilter.draw` (MorphFilter.js lines
62-71 and 117): `if (region.width <= 0 || region.height <= 0) return;`
leaves the canvas untouched, otherwise `putImageData` replaces exactly
the region's rectangle with the morphed pixels.  The per-pixel content
(`morphed`) is left as a parameter — the verified property is only that a
non-positive-area region produces no output. -/
def morphDrawWriteBack (region : Region) (canvas morphed : Canvas) : Canvas :=
  if region.width ≤ 0 ∨ region.height ≤ 0 then canvas
  else fun px py =>
    if region.minX ≤ px ∧ px < region.minX + region.width ∧
        region.minY ≤ py ∧ py < region.minY + region.height then
      morphed px py
    else canvas px py

/-! ## Geometry / viewport utilities (`viewportUtils.js`, appended to
`src/src/utils/mathUtils.js`) -/

/-- A 3D landmark point `[x, y, depth]`. -/
abbrev LandmarkPoint : Type := ℚ × ℚ × ℚ

/-- A face detection result: its `scaledMesh` point list. -/
structure Face where
  scaledMesh : List LandmarkPoint
deriving DecidableEq

/-- The named reference points extracted by `getFacePoints`
(viewportUtils lines 161-175); `mesh[i]` is `undefined` (`none`) when the
index is absent. -/
structure FacePoints where
  noseTip : Option LandmarkPoint
  leftEye : Option LandmarkPoint
  rightEye : Option LandmarkPoint
  foreheadCenter : Option LandmarkPoint
  leftMouth : Option LandmarkPoint
  rightMouth : Option LandmarkPoint
  leftCheek : Option LandmarkPoint
  rightCheek : Option LandmarkPoint

/-- The `getFacePoints` with the `LANDMARKS` indices of constants.js lines
150-181 (NOSE_TIP 1, LEFT_EYE 33, RIGHT_EYE 263, FOREHEAD_CENTER 9,
LEFT_MOUTH 61, RIGHT_MOUTH 291, LEFT_CHEEK 116, RIGHT_CHEEK 345). -/
def getFacePoints (face : Face) : FacePoints :=
  { noseTip := face.scaledMesh.get? 1
    leftEye := face.scaledMesh.get? 33
    rightEye := face.scaledMesh.get? 263
    foreheadCenter := face.scaledMesh.get? 9
    leftMouth := face.scaledMesh.get? 61
    rightMouth := face.scaledMesh.get? 291
    leftCheek := face.scaledMesh.get? 116
    rightCheek := face.scaledMesh.get? 345 }

/-- The result of `getFaceDimensions`. -/
structure FaceDims where
  faceWidth : ℚ
  faceHeight : ℚ
  eyeCenter : ℚ × ℚ

/-- The `getFaceDimensions` (viewportUtils lines 182-191).  It dereferences
`rightEye[0]`, `leftEye[0/1]`, `foreheadCenter[1]`, `noseTip[1]`; if any
of those four points is `undefined` the JavaScript throws a `TypeError`,
modelled as `none`. -/
def getFaceDimensions (points : FacePoints) : Option FaceDims :=
  match points.rightEye, points.leftEye, points.foreheadCenter, points.noseTip with
  | some re, some le, some fc, some nt =>
    some { faceWidth := |re.1 - le.1|
           faceHeight := |fc.2.1 - nt.2.1|
           eyeCenter := ((le.1 + re.1) / 2, (le.2.1 + re.2.1) / 2) }
  | _, _, _, _ => none

/-- The `isInViewport` (viewportUtils lines 136-139). -/
def isInViewport (x y radius canvasWidth canvasHeight : ℚ) : Bool :=
  decide (0 ≤ x + radius) && decide (x - radius ≤ canvasWidth) &&
  decide (0 ≤ y + radius) && decide (y - radius ≤ canvasHeight)

/-- The `shouldCullAnimation` (viewportUtils lines 148-154): `none` models
the `TypeError` thrown when a dereferenced landmark is missing. -/
def shouldCullAnimation (face : Face) (canvasWidth canvasHeight : ℚ) : Option Bool :=
  let points := getFacePoints face
  match getFaceDimensions points, points.noseTip with
  | some dims, some nt =>
    some (! isInViewport nt.1 nt.2.1
      (dims.faceWidth * CULLING_MAX_FILTER_RADIUS_MULTIPLIER) canvasWidth canvasHeight)
  | _, _ => none

/-! ## Filter renderer (`src/src/filters/FilterRenderer.js`) -/

/-- The `faces.forEach` body of `FilterRenderer.render` (FilterRenderer.js
lines 79-93).  Returns the faces on which `filter.draw` is invoked (the
`draw` call itself sits in a `try/catch`, so its own failures do not
affect the iteration), together with a flag recording whether the
iteration was aborted: `shouldCullAnimation` is called *outside* the
`try/catch`, so a `TypeError` from a malformed face propagates and stops
the `forEach` — no later face is processed. -/
def renderFaces (canvasWidth canvasHeight : ℚ) : List Face → List Face × Bool
  | [] => ([], false)
  | face :: rest =>
    match shouldCullAnimation face canvasWidth canvasHeight with
    | none => ([], true)
    | some true => renderFaces canvasWidth canvasHeight rest
    | some false =>
      let r := renderFaces canvasWidth canvasHeight rest
      (face :: r.1, r.2)

/-- The `FilterRenderer.render` (FilterRenderer.js lines 68-94):
`filterActive` is `currentFilterName !== 'none' && filters.has(name)`;
with no active filter or an empty face list nothing is drawn. -/
def render (filterActive : Bool) (canvasWidth canvasHeight : ℚ)
    (faces : List Face) : List Face × Bool :=
  if !filterActive || faces.isEmpty then ([], false)
  else renderFaces canvasWidth canvasHeight faces

/-! ## Bilinear sampler (`bilinearSample`, viewportUtils lines 202-238) -/

/-- JavaScript `Math.round`: round half toward `+∞`. -/
def jsRound (q : ℚ) : ℤ := ⌊q + 1 / 2⌋

/-- One channel read `imageData[i] || dflt` of `getPixel`: an out-of-range
index yields `undefined` hence the fallback, and — because `0` is falsy —
a stored `0` also yields the fallback. -/
def readChan (data : List ℤ) (i : ℤ) (dflt : ℤ) : ℤ :=
  if i < 0 then dflt
  else
    match data.get? i.toNat with
    | some v => if v = 0 then dflt else v
    | none => dflt

/-- The `getPixel` closure of `bilinearSample` (viewportUtils lines
215-223): channel `k` of the pixel `(px, py)`, with fallbacks
`0, 0, 0, 255` for channels `0..3`. -/
def getPixel (data : List ℤ) (width : ℤ) (px py : ℤ) (k : ℕ) : ℤ :=
  let index := (py * width + px) * 4
  readChan data (index + (k : ℤ)) (if k = 3 then 255 else 0)

/-- The `bilinearSample` (viewportUtils lines 202-238): clamp the coordinate
into `[0, width-1] × [0, height-1]`, read the four surrounding pixels,
blend channel-wise, `Math.round` each channel; the `for i in 0..3` loop
building the result array is written out as the four-element list. -/
def bilinearSample (data : List ℤ) (x y : ℚ) (width height : ℤ) : List ℤ :=
  let x := max 0 (min ((width : ℚ) - 1) x)
  let y := max 0 (min ((height : ℚ) - 1) y)
  let x1 := ⌊x⌋
  let y1 := ⌊y⌋
  let x2 := min (x1 + 1) (width - 1)
  let y2 := min (y1 + 1) (height - 1)
  let fx : ℚ := x - x1
  let fy : ℚ := y - y1
  let p1 := getPixel data width x1 y1
  let p2 := getPixel data width x2 y1
  let p3 := getPixel data width x1 y2
  let p4 := getPixel data width x2 y2
  let chan := fun (k : ℕ) =>
    let top : ℚ := p1 k * (1 - fx) + p2 k * fx
    let bottom : ℚ := p3 k * (1 - fx) + p4 k * fx
    jsRound (top * (1 - fy) + bottom * fy)
  [chan 0, chan 1, chan 2, chan 3]

/-! ## Performance controller (`PerformanceManager`, `src/unnamed/part_004`) -/

/-- One per-tier bundle of `PERFORMANCE.HIGH / MEDIUM / LOW`
(constants.js lines 7-38). -/
structure PerfSettings where
  maxFaces : ℤ
  skipFrames : ℤ
  shadowBlur : ℤ
  particleCount : ℤ
  animationSpeed : ℚ
  cleanupInterval : ℤ
  targetFPS : ℤ
  detectionConfidence : ℚ
deriving DecidableEq, Repr

/-- The `PERFORMANCE[level.toUpperCase()]`. -/
def PERFORMANCE : PerfLevel → PerfSettings
  | PerfLevel.high =>
    { maxFaces := 5, skipFrames := 1, shadowBlur := 10, particleCount := 8
      animationSpeed := 1.0, cleanupInterval := 60, targetFPS := 30
      detectionConfidence := 0.5 }
  | PerfLevel.medium =>
    { maxFaces := 3, skipFrames := 2, shadowBlur := 5, particleCount := 6
      animationSpeed := 0.8, cleanupInterval := 40, targetFPS := 24
      detectionConfidence := 0.6 }
  | PerfLevel.low =>
    { maxFaces := 1, skipFrames := 5, shadowBlur := 0, particleCount := 4
      animationSpeed := 0.6, cleanupInterval := 20, targetFPS := 20
      detectionConfidence := 0.7 }

/-- The `PerformanceManager.getQualitySettings` (part_004 lines 220-231),
with the instance fields `this.performanceLevel` and
`this.memoryPressureLevel` passed explicitly. -/
def getQualitySettings (performanceLevel : PerfLevel) (memoryPressureLevel : ℤ) :
    PerfSettings :=
  let settings := PERFORMANCE performanceLevel
  if 0 < memoryPressureLevel then
    { settings with
      skipFrames := min (settings.skipFrames + memoryPressureLevel) 5
      particleCount := max (settings.particleCount - memoryPressureLevel) 1
      shadowBlur := max (settings.shadowBlur - memoryPressureLevel * 2) 0 }
  else settings

/-- The `Math.round` lifted to `JSNum` (`Math.round(±∞) = ±∞`,
`Math.round(NaN) = NaN`). -/
def jsRoundJ : JSNum → JSNum
  | JSNum.num q => JSNum.num (jsRound q)
  | JSNum.nan => JSNum.nan
  | JSNum.inf => JSNum.inf
  | JSNum.ninf => JSNum.ninf

/-- The `PerformanceManager` state touched by `updateFPS`
(constructor, part_004 lines 102-113: level `'high'`, fps `0`,
frameCount `0`, dynamicSkipInterval `1`). -/
structure PerfState where
  performanceLevel : PerfLevel
  fps : JSNum
  frameCount : ℕ
  dynamicSkipInterval : ℤ
deriving DecidableEq, Repr

/-- The `PerformanceManager` constructor's initial values of the
`updateFPS` state. -/
def initPerfState : PerfState :=
  { performanceLevel := PerfLevel.high, fps := JSNum.num 0
    frameCount := 0, dynamicSkipInterval := 1 }

/-- The `PerformanceManager.updateFPS` (part_004 lines 237-257): every 30th
frame, recompute `fps = Math.round(1000 / deltaTime)`; below
`targetFPS − 5` bump the skip interval (ceiling 5) and step the tier down
one level; above `targetFPS + 5` with interval `> 1`, drop the interval
(floor 1).  A `deltaTime` of `0` gives `fps = +∞` (recover branch), kept
faithful via `JSNum`. -/
def updateFPS (s : PerfState) (deltaTime : ℚ) : PerfState :=
  let s := { s with frameCount := s.frameCount + 1 }
  if s.frameCount % 30 = 0 then
    let fps := jsRoundJ (JSNum.div (JSNum.num 1000) (JSNum.num deltaTime))
    let targetFPS := (PERFORMANCE s.performanceLevel).targetFPS
    if JSNum.ltb fps (JSNum.num (targetFPS - 5)) then
      { s with fps := fps
               dynamicSkipInterval := min (s.dynamicSkipInterval + 1) 5
               performanceLevel :=
                 match s.performanceLevel with
                 | PerfLevel.high => PerfLevel.medium
                 | PerfLevel.medium => PerfLevel.low
                 | PerfLevel.low => PerfLevel.low }
    else if JSNum.gtb fps (JSNum.num (targetFPS + 5)) ∧ 1 < s.dynamicSkipInterval then
      { s with fps := fps
               dynamicSkipInterval := max (s.dynamicSkipInterval - 1) 1 }
    else { s with fps := fps }
  else s

/-- The `Array.prototype.map` with the element index, starting at `n`. -/
def listMapIdxFrom (f : ℕ → α → β) : ℕ → List α → List β
  | _, [] => []
  | n, a :: as => f n a :: listMapIdxFrom f (n + 1) as

/-- The `Array.prototype.map((element, index) => …)`. -/
def listMapIdx (f : ℕ → α → β) (l : List α) : List β := listMapIdxFrom f 0 l

/-- The per-point blend of `PerformanceManager.interpolateFaces`
(part_004 lines 324-328): `cached + (new − cached) * progress`
componentwise on `[x, y, depth]`. -/
def blendPoint (cachedPoint point : LandmarkPoint) (progress : ℚ) : LandmarkPoint :=
  (cachedPoint.1 + (point.1 - cachedPoint.1) * progress,
   cachedPoint.2.1 + (point.2.1 - cachedPoint.2.1) * progress,
   cachedPoint.2.2 + (point.2.2 - cachedPoint.2.2) * progress)

/-- The per-face branch of `interpolateFaces` (part_004 lines 315-331):
landmarks beyond the cached mesh's length pass through unchanged. -/
def blendFace (cached face : Face) (progress : ℚ) : Face :=
  { scaledMesh :=
      listMapIdx
        (fun pointIndex point =>
          match cached.scaledMesh.get? pointIndex with
          | none => point
          | some cachedPoint => blendPoint cachedPoint point progress)
        face.scaledMesh }

/-- The `PerformanceManager.interpolateFaces` (part_004 lines 309-335),
returning the interpolated list and the new `this.cachedFaces`.  With no
cache or an empty `faces` list the input passes through; otherwise each
face present in the cache is blended toward the cache by `progress`,
faces beyond the cache's length pass through unchanged. -/
def interpolateFaces (cachedFaces : Option (List Face)) (faces : List Face)
    (progress : ℚ) : List Face × Option (List Face) :=
  match cachedFaces with
  | none => (faces, some faces)
  | some cached =>
    if faces.isEmpty then (faces, some faces)
    else
      (listMapIdx
        (fun index face =>
          match cached.get? index with
          | none => face
          | some cachedFace => blendFace cachedFace face progress)
        faces,
       some faces)

/-- The amended quality-settings adjustment rule, stated from the spec's
words with the shadow-blur decrement corrected to *twice* the pressure
level: skip-frames increased by the level (ceiling 5), particle-count
decreased by the level (floor 1), shadow-blur decreased by twice the
level (floor 0).  Used to compare `getQualitySettings` against the
specification. -/
def specQualitySettings (performanceLevel : PerfLevel) (memoryPressureLevel : ℤ) :
    PerfSettings :=
  let base := PERFORMANCE performanceLevel
  { base with
    skipFrames := min (base.skipFrames + memoryPressureLevel) 5
    particleCount := max (base.particleCount - memoryPressureLevel) 1
    shadowBlur := max (base.shadowBlur - 2 * memoryPressureLevel) 0 }

/-- The literal adjustment rule of the claim "skip-frames increased, and
particle-count and shadow-blur decreased, by the pressure level": here
the shadow-blur field decreases by exactly the level.  Stated from the
claim's words, to be refuted against `getQualitySettings`. -/
def claimQualitySettingsBlur (performanceLevel : PerfLevel)
    (memoryPressureLevel : ℤ) : ℤ :=
  max ((PERFORMANCE performanceLevel).shadowBlur - memoryPressureLevel) 0

/-- Height of a performance tier in the HIGH > MEDIUM > LOW order. -/
def levelRank : PerfLevel → ℕ
  | PerfLevel.low => 0
  | PerfLevel.medium => 1
  | PerfLevel.high => 2

/-- A JavaScript value that is a finite number or `NaN` (the influence
functions never produce an infinity). -/
def JSNum.numOrNaN (v : JSNum) : Prop := (∃ q : ℚ, v = JSNum.num q) ∨ v = JSNum.nan

/-! ## Basic facts about the JavaScript number model -/

theorem JSNum.gtb_nan_left (v : JSNum) : JSNum.gtb JSNum.nan v = false := by
  cases v <;> rfl

theorem JSNum.gtb_num_num (a b : ℚ) :
    JSNum.gtb (JSNum.num a) (JSNum.num b) = decide (b < a) := rfl

theorem JSNum.gtb_num_false {a b : ℚ} (h : a ≤ b) :
    JSNum.gtb (JSNum.num a) (JSNum.num b) = false := by
  simp [JSNum.gtb, JSNum.ltb, not_lt.mpr h]

theorem JSNum.add_num (a b : ℚ) :
    JSNum.add (JSNum.num a) (JSNum.num b) = JSNum.num (a + b) := rfl

theorem JSNum.sub_num (a b : ℚ) :
    JSNum.sub (JSNum.num a) (JSNum.num b) = JSNum.num (a - b) := by
  simp [JSNum.sub, JSNum.add, JSNum.neg, sub_eq_add_neg]

theorem JSNum.mul_num (a b : ℚ) :
    JSNum.mul (JSNum.num a) (JSNum.num b) = JSNum.num (a * b) := rfl

theorem JSNum.mul_nan_right (v : JSNum) : JSNum.mul v JSNum.nan = JSNum.nan := by
  cases v <;> rfl

theorem JSNum.mul_nan_left (v : JSNum) : JSNum.mul JSNum.nan v = JSNum.nan := by
  cases v <;> rfl

theorem JSNum.div_nan_left (v : JSNum) : JSNum.div JSNum.nan v = JSNum.nan := by
  cases v <;> rfl

theorem JSNum.div_num_num_of_ne {a b : ℚ} (h : b ≠ 0) :
    JSNum.div (JSNum.num a) (JSNum.num b) = JSNum.num (a / b) := by
  simp [JSNum.div, h]

theorem JSNum.div_zero_zero : JSNum.div (JSNum.num 0) (JSNum.num 0) = JSNum.nan := by
  simp [JSNum.div]

theorem JSNum.maxJ_num_nan : JSNum.maxJ (JSNum.num 0) JSNum.nan = JSNum.nan := rfl

theorem JSNum.sub_nan_right (v : JSNum) : JSNum.sub v JSNum.nan = JSNum.nan := by
  cases v <;> rfl

/-! ## C4 / C5: tier and skip-interval dynamics of `updateFPS` -/

theorem updateFPS_level_cases (s : PerfState) (dt : ℚ) :
    (updateFPS s dt).performanceLevel = s.performanceLevel ∨
    (s.performanceLevel = PerfLevel.high ∧
      (updateFPS s dt).performanceLevel = PerfLevel.medium) ∨
    (s.performanceLevel = PerfLevel.medium ∧
      (updateFPS s dt).performanceLevel = PerfLevel.low) := by
  unfold updateFPS
  dsimp only
  split_ifs with h1 h2 h3
  · cases h : s.performanceLevel <;> simp [h]
  · left; rfl
  · left; rfl
  · left; rfl

theorem updateFPS_preserves_low {s : PerfState} (dt : ℚ)
    (h : s.performanceLevel = PerfLevel.low) :
    (updateFPS s dt).performanceLevel = PerfLevel.low := by
  rcases updateFPS_level_cases s dt with h' | ⟨h1, _⟩ | ⟨h1, h2⟩
  · rw [h', h]
  · rw [h] at h1; cases h1
  · exact h2

theorem foldl_updateFPS_low {s : PerfState} (dts : List ℚ)
    (h : s.performanceLevel = PerfLevel.low) :
    (List.foldl updateFPS s dts).performanceLevel = PerfLevel.low := by
  induction dts generalizing s with
  | nil => exact h
  | cons d ds ih => exact ih (updateFPS_preserves_low d h)

/-- C4: under every `updateFPS` step the performance tier moves only
downward and only by a single level (HIGH→MEDIUM or MEDIUM→LOW), and a
state at tier LOW stays at LOW under every sequence of `updateFPS`
steps — the tier is never raised by this path. -/
theorem C4_tier_monotonic_single_steps :
    (∀ (s : PerfState) (dt : ℚ),
      levelRank (updateFPS s dt).performanceLevel ≤ levelRank s.performanceLevel ∧
      levelRank s.performanceLevel ≤ levelRank (updateFPS s dt).performanceLevel + 1) ∧
    (∀ (fps : JSNum) (frameCount : ℕ) (skip : ℤ) (dts : List ℚ),
      (List.foldl updateFPS
        { performanceLevel := PerfLevel.low, fps := fps, frameCount := frameCount,
          dynamicSkipInterval := skip } dts).performanceLevel = PerfLevel.low) := by
  constructor
  · intro s dt
    rcases updateFPS_level_cases s dt with h | ⟨h1, h2⟩ | ⟨h1, h2⟩
    · rw [h]; omega
    · rw [h1, h2]; simp [levelRank]
    · rw [h1, h2]; simp [levelRank]
  · intro fps frameCount skip dts
    exact foldl_updateFPS_low dts rfl

theorem updateFPS_skip_bounds {s : PerfState} (dt : ℚ)
    (h1 : 1 ≤ s.dynamicSkipInterval) (h5 : s.dynamicSkipInterval ≤ 5) :
    1 ≤ (updateFPS s dt).dynamicSkipInterval ∧
    (updateFPS s dt).dynamicSkipInterval ≤ 5 := by
  unfold updateFPS
  dsimp only
  split_ifs <;> constructor <;> simp <;> omega

/-- C5: starting from the constructor state, the dynamic skip interval
stays in `[1, 5]` under every sequence of `updateFPS` steps. -/
theorem C5_skip_interval_bounds (dts : List ℚ) :
    1 ≤ (List.foldl updateFPS initPerfState dts).dynamicSkipInterval ∧
    (List.foldl updateFPS initPerfState dts).dynamicSkipInterval ≤ 5 := by
  have key : ∀ (l : List ℚ) (s : PerfState),
      1 ≤ s.dynamicSkipInterval → s.dynamicSkipInterval ≤ 5 →
      1 ≤ (List.foldl updateFPS s l).dynamicSkipInterval ∧
      (List.foldl updateFPS s l).dynamicSkipInterval ≤ 5 := by
    intro l
    induction l with
    | nil => exact fun s h1 h5 => ⟨h1, h5⟩
    | cons d ds ih =>
      intro s h1 h5
      obtain ⟨g1, g5⟩ := updateFPS_skip_bounds d h1 h5
      exact ih (updateFPS s d) g1 g5
  exact key dts initPerfState (by norm_num [initPerfState]) (by norm_num [initPerfState])

/-! ## C9: quality settings under memory pressure -/

/-- C9 (amended): `getQualitySettings` returns the active tier's
configuration with skip-frames increased by the pressure level (ceiling
5), particle-count decreased by the level (floor 1) and shadow-blur
decreased by *twice* the level (floor 0); the clamps `5 / 1 / 0` are
never exceeded, and pressure level 2 on tier MEDIUM yields skip-frames 4,
particle-count 4 and shadow-blur 1. -/
theorem C9_quality_settings_amended :
    (∀ (level : PerfLevel) (mp : ℤ), 0 ≤ mp →
      getQualitySettings level mp = specQualitySettings level mp) ∧
    (∀ (level : PerfLevel) (mp : ℤ),
      (getQualitySettings level mp).skipFrames ≤ 5 ∧
      1 ≤ (getQualitySettings level mp).particleCount ∧
      0 ≤ (getQualitySettings level mp).shadowBlur) ∧
    ((getQualitySettings PerfLevel.medium 2).skipFrames = 4 ∧
     (getQualitySettings PerfLevel.medium 2).particleCount = 4 ∧
     (getQualitySettings PerfLevel.medium 2).shadowBlur = 1) := by
  refine ⟨?_, ?_, by decide⟩
  · intro level mp hmp
    rcases lt_or_eq_of_le hmp with hpos | hzero
    · cases level <;>
        simp [getQualitySettings, specQualitySettings, hpos, mul_comm]
    · rw [← hzero]
      cases level <;>
        simp [getQualitySettings, specQualitySettings, PERFORMANCE]
  · intro level mp
    unfold getQualitySettings
    dsimp only
    split_ifs
    · refine ⟨min_le_right _ _, le_max_right _ _, le_max_right _ _⟩
    · cases level <;> decide

/-- C9 witness: the amended equation applied at tier MEDIUM, pressure 2. -/
theorem C9_witness :
    getQualitySettings PerfLevel.medium 2 = specQualitySettings PerfLevel.medium 2 :=
  C9_quality_settings_amended.1 PerfLevel.medium 2 (by norm_num)

/-- C9 counterexample: at tier MEDIUM under pressure level 2 the code's
shadow-blur is 1, not the `max (5 − 2) 0 = 3` that "shadow-blur decreased
by the pressure level" prescribes — the code decreases blur by twice the
level. -/
theorem C9_counterexample :
    (getQualitySettings PerfLevel.medium 2).shadowBlur = 1 ∧
    claimQualitySettingsBlur PerfLevel.medium 2 = 3 ∧
    (getQualitySettings PerfLevel.medium 2).shadowBlur ≠
      claimQualitySettingsBlur PerfLevel.medium 2 := by
  refine ⟨by decide, by decide, by decide⟩

/-! ## C2: the morph processing region -/

/-- C2 (amended): the region returned by `calculateProcessingRegion` has
`minX, minY ≥ 0` and `minX + width ≤ canvasWidth`,
`minY + height ≤ canvasHeight`; its width or height can be *negative*
(not merely zero) when the face lies entirely outside the canvas, and any
region of non-positive width or height is the valid "nothing to draw"
state: the `draw` write-back leaves the canvas unchanged. -/
theorem C2_region_clipped_amended (eyeCenter : ℚ × ℚ) (faceWidth faceHeight : ℚ)
    (canvasWidth canvasHeight : ℤ) (level : PerfLevel) (canvas morphed : Canvas) :
    0 ≤ (calculateProcessingRegion eyeCenter faceWidth faceHeight
          canvasWidth canvasHeight level).minX ∧
    0 ≤ (calculateProcessingRegion eyeCenter faceWidth faceHeight
          canvasWidth canvasHeight level).minY ∧
    (calculateProcessingRegion eyeCenter faceWidth faceHeight
        canvasWidth canvasHeight level).minX +
      (calculateProcessingRegion eyeCenter faceWidth faceHeight
        canvasWidth canvasHeight level).width ≤ canvasWidth ∧
    (calculateProcessingRegion eyeCenter faceWidth faceHeight
        canvasWidth canvasHeight level).minY +
      (calculateProcessingRegion eyeCenter faceWidth faceHeight
        canvasWidth canvasHeight level).height ≤ canvasHeight ∧
    ((calculateProcessingRegion eyeCenter faceWidth faceHeight
        canvasWidth canvasHeight level).width ≤ 0 ∨
     (calculateProcessingRegion eyeCenter faceWidth faceHeight
        canvasWidth canvasHeight level).height ≤ 0 →
      morphDrawWriteBack (calculateProcessingRegion eyeCenter faceWidth faceHeight
        canvasWidth canvasHeight level) canvas morphed = canvas) := by
  unfold calculateProcessingRegion
  dsimp only
  refine ⟨le_max_left _ _, le_max_left _ _, ?_, ?_, ?_⟩
  · have h := min_le_left canvasWidth
      ⌈eyeCenter.1 + faceWidth * (MORPH_CONFIG level).faceMultiplier +
        max faceWidth faceHeight * (MORPH_CONFIG level).paddingMultiplier⌉
    omega
  · have h := min_le_left canvasHeight
      ⌈eyeCenter.2 + faceHeight * (MORPH_CONFIG level).heightMultiplier +
        max faceWidth faceHeight * (MORPH_CONFIG level).paddingMultiplier⌉
    omega
  · intro h
    unfold morphDrawWriteBack
    rw [if_pos h]

/-- C2 counterexample: a face whose eye centre sits at `x = −1000` on a
640×480 canvas (face width = height = 100, tier HIGH) yields a region of
width `−800`, refuting the claimed non-negativity of the region's
dimensions. -/
theorem C2_counterexample :
    (calculateProcessingRegion (-1000, 240) 100 100 640 480 PerfLevel.high).width
      = -800 ∧
    (calculateProcessingRegion (-1000, 240) 100 100 640 480 PerfLevel.high).width
      < 0 := by
  have h : (calculateProcessingRegion (-1000, 240) 100 100 640 480
      PerfLevel.high).width = -800 := by
    unfold calculateProcessingRegion
    dsimp only
    norm_num [MORPH_CONFIG]
    rw [show ((-800 : ℚ)) = ((-800 : ℤ) : ℚ) by norm_num, Int.ceil_intCast]
    norm_num
  exact ⟨h, by rw [h]; norm_num⟩

/-- C2 witness: the amended theorem applied at the off-canvas face — the
clamps hold and the negative-width region draws nothing. -/
theorem C2_witness :
    morphDrawWriteBack
      (calculateProcessingRegion (-1000, 240) 100 100 640 480 PerfLevel.high)
      (fun _ _ => (0, 0, 0, 0)) (fun _ _ => (1, 1, 1, 1)) =
      (fun _ _ => (0, 0, 0, 0)) ∧
    0 ≤ (calculateProcessingRegion (-1000, 240) 100 100 640 480 PerfLevel.high).minX := by
  have h := C2_region_clipped_amended (-1000, 240) 100 100 640 480 PerfLevel.high
    (fun _ _ => (0, 0, 0, 0)) (fun _ _ => (1, 1, 1, 1))
  have hw : (calculateProcessingRegion (-1000, 240) 100 100 640 480
      PerfLevel.high).width ≤ 0 := by
    unfold calculateProcessingRegion
    dsimp only
    norm_num [MORPH_CONFIG]
    rw [show ((-800 : ℚ)) = ((-800 : ℤ) : ℚ) by norm_num, Int.ceil_intCast]
    norm_num
  exact ⟨h.2.2.2.2 (Or.inl hw), h.1⟩

/-! ## C6: the interpolation blend law -/

theorem listMapIdxFrom_length {α β : Type} (f : ℕ → α → β) (n : ℕ) (l : List α) :
    (listMapIdxFrom f n l).length = l.length := by
  induction l generalizing n with
  | nil => rfl
  | cons a as ih => simp [listMapIdxFrom, ih]

theorem listMapIdxFrom_get? {α β : Type} (f : ℕ → α → β) (n i : ℕ) (l : List α) :
    (listMapIdxFrom f n l).get? i = (l.get? i).map (f (n + i)) := by
  induction l generalizing n i with
  | nil => simp [listMapIdxFrom]
  | cons a as ih =>
    cases i with
    | zero => simp [listMapIdxFrom]
    | succ j =>
      simp only [listMapIdxFrom, List.get?_cons_succ, ih (n + 1) j]
      ring_nf

theorem listMapIdx_get? {α β : Type} (f : ℕ → α → β) (i : ℕ) (l : List α) :
    (listMapIdx f l).get? i = (l.get? i).map (f i) := by
  simpa using listMapIdxFrom_get? f 0 i l

theorem interpolateFaces_fst (A : List Face) (B : List Face) (progress : ℚ) :
    (interpolateFaces (some A) B progress).1 =
      listMapIdx
        (fun index face =>
          match A.get? index with
          | none => face
          | some cachedFace => blendFace cachedFace face progress)
        B := by
  cases B with
  | nil => rfl
  | cons b bs => simp [interpolateFaces]

/-- C6: for every cached snapshot `A` and new snapshot `B`,
`interpolateFaces` at blend factor 0.3 returns a snapshot with `B`'s face
indices in which every landmark present in both meshes is
`A + (B − A) × 0.3` componentwise on x, y and depth; a face index or a
landmark index present only in the new snapshot passes through
unchanged. -/
theorem C6_interpolation_blend_law (A B : List Face) :
    ((interpolateFaces (some A) B 0.3).1.length = B.length) ∧
    (∀ (i : ℕ) (fa fb : Face), A.get? i = some fa → B.get? i = some fb →
      ∃ fo : Face, (interpolateFaces (some A) B 0.3).1.get? i = some fo ∧
        fo.scaledMesh.length = fb.scaledMesh.length ∧
        (∀ (j : ℕ) (pa pb : LandmarkPoint),
          fa.scaledMesh.get? j = some pa → fb.scaledMesh.get? j = some pb →
          fo.scaledMesh.get? j = some
            (pa.1 + (pb.1 - pa.1) * 0.3,
             pa.2.1 + (pb.2.1 - pa.2.1) * 0.3,
             pa.2.2 + (pb.2.2 - pa.2.2) * 0.3)) ∧
        (∀ (j : ℕ) (pb : LandmarkPoint),
          fa.scaledMesh.get? j = none → fb.scaledMesh.get? j = some pb →
          fo.scaledMesh.get? j = some pb)) ∧
    (∀ (i : ℕ) (fb : Face), A.get? i = none → B.get? i = some fb →
      (interpolateFaces (some A) B 0.3).1.get? i = some fb) := by
  rw [interpolateFaces_fst]
  refine ⟨?_, ?_, ?_⟩
  · simpa [listMapIdx] using listMapIdxFrom_length _ 0 B
  · intro i fa fb ha hb
    refine ⟨blendFace fa fb 0.3, ?_, ?_, ?_, ?_⟩
    · rw [listMapIdx_get?, hb]
      simp only [Option.map_some', ha]
    · simp only [blendFace, listMapIdx]
      exact listMapIdxFrom_length _ 0 _
    · intro j pa pb hpa hpb
      simp only [blendFace]
      rw [listMapIdx_get?, hpb]
      simp only [Option.map_some', hpa]
      rfl
    · intro j pb hpa hpb
      simp only [blendFace]
      rw [listMapIdx_get?, hpb]
      simp only [Option.map_some', hpa]
  · intro i fb ha hb
    rw [listMapIdx_get?, hb]
    simp only [Option.map_some', ha]

/-- C6 witness: cached point `(0,0,0)`, new point `(10,20,30)` blends to
`(3,6,9)`, and a second landmark absent from the cache passes through. -/
theorem C6_witness :
    ∃ fo : Face,
      (interpolateFaces (some [Face.mk [(0, 0, 0)]])
        [Face.mk [(10, 20, 30), (7, 8, 9)]] 0.3).1.get? 0 = some fo ∧
      fo.scaledMesh.get? 0 = some (3, 6, 9) ∧
      fo.scaledMesh.get? 1 = some (7, 8, 9) := by
  obtain ⟨fo, hface, _, hblend, hpass⟩ :=
    (C6_interpolation_blend_law [Face.mk [(0, 0, 0)]]
      [Face.mk [(10, 20, 30), (7, 8, 9)]]).2.1 0 (Face.mk [(0, 0, 0)])
      (Face.mk [(10, 20, 30), (7, 8, 9)]) rfl rfl
  refine ⟨fo, hface, ?_, hpass 1 (7, 8, 9) rfl rfl⟩
  have h := hblend 0 (0, 0, 0) (10, 20, 30) rfl rfl
  rw [h]
  norm_num

/-! ## C7: the bilinear sampler -/

theorem jsRound_intCast (n : ℤ) : jsRound (n : ℚ) = n := by
  unfold jsRound
  rw [Int.floor_int_add]
  norm_num

theorem readChan_some {data : List ℤ} {i v : ℤ} (d : ℤ) (h0 : 0 ≤ i)
    (hv : data.get? i.toNat = some v) :
    readChan data i d = if v = 0 then d else v := by
  unfold readChan
  rw [if_neg (not_lt.mpr h0), hv]

theorem clampQ_idem (A x : ℚ) :
    max 0 (min A (max 0 (min A x))) = max 0 (min A x) := by
  rcases le_or_lt A 0 with hA | hA
  · have h1 : max (0:ℚ) (min A x) = 0 := max_eq_left (le_trans (min_le_left A x) hA)
    rw [h1, min_eq_left hA, max_eq_left hA]
  · have hc : max 0 (min A x) ≤ A := max_le hA.le (min_le_left A x)
    rw [min_eq_right hc, max_eq_right (le_max_left 0 (min A x))]

/-- C7 (amended): at an in-bounds integer coordinate `bilinearSample`
returns exactly that pixel's stored R, G, B channels, while a stored
alpha of `0` comes back as `255` (the falsy `|| 255` fallback); and for
*every* coordinate the sample equals the sample at the coordinate clamped
into `[0, width−1] × [0, height−1]` (clamp-to-edge replication — no
wraparound, no transparent-black fill).  -/
theorem C7_bilinear_amended :
    (∀ (data : List ℤ) (w h ix iy r g b a : ℤ),
      0 ≤ ix → ix < w → 0 ≤ iy → iy < h →
      data.get? ((iy * w + ix) * 4).toNat = some r →
      data.get? ((iy * w + ix) * 4 + 1).toNat = some g →
      data.get? ((iy * w + ix) * 4 + 2).toNat = some b →
      data.get? ((iy * w + ix) * 4 + 3).toNat = some a →
      bilinearSample data ix iy w h = [r, g, b, if a = 0 then 255 else a]) ∧
    (∀ (data : List ℤ) (w h : ℤ) (x y : ℚ),
      bilinearSample data x y w h =
        bilinearSample data (max 0 (min ((w : ℚ) - 1) x))
          (max 0 (min ((h : ℚ) - 1) y)) w h) := by
  constructor
  · intro data w h ix iy r g b a h0x hxw h0y hyh hr hg hb ha
    have hwpos : 0 < w := lt_of_le_of_lt h0x hxw
    have hidx : 0 ≤ (iy * w + ix) * 4 := by
      have : 0 ≤ iy * w := mul_nonneg h0y hwpos.le
      omega
    have hxq : max 0 (min ((w : ℚ) - 1) (ix : ℚ)) = (ix : ℚ) := by
      rw [min_eq_right, max_eq_right]
      · exact_mod_cast h0x
      · have h2 : ix ≤ w - 1 := by omega
        exact_mod_cast h2
    have hyq : max 0 (min ((h : ℚ) - 1) (iy : ℚ)) = (iy : ℚ) := by
      rw [min_eq_right, max_eq_right]
      · exact_mod_cast h0y
      · have h2 : iy ≤ h - 1 := by omega
        exact_mod_cast h2
    simp only [bilinearSample, hxq, hyq, Int.floor_intCast, sub_self]
    have hpix0 : getPixel data w ix iy 0 = r := by
      unfold getPixel
      norm_num
      rw [readChan_some 0 hidx hr]
      split_ifs with hz
      · omega
      · rfl
    have hpix1 : getPixel data w ix iy 1 = g := by
      unfold getPixel
      norm_num
      rw [readChan_some 0 (by omega) hg]
      split_ifs with hz
      · omega
      · rfl
    have hpix2 : getPixel data w ix iy 2 = b := by
      unfold getPixel
      norm_num
      rw [readChan_some 0 (by omega) hb]
      split_ifs with hz
      · omega
      · rfl
    have hpix3 : getPixel data w ix iy 3 = if a = 0 then 255 else a := by
      unfold getPixel
      norm_num
      rw [readChan_some 255 (by omega) ha]
    norm_num [hpix0, hpix1, hpix2, hpix3, jsRound_intCast]
    split_ifs with hz
    · norm_num [jsRound]
    · exact jsRound_intCast a
  · intro data w h x y
    simp only [bilinearSample]
    rw [clampQ_idem, clampQ_idem]

/-- C7 counterexample: a 1×1 buffer whose pixel is `[10, 20, 30, 0]`
(zero alpha) samples at the in-bounds integer coordinate `(0,0)` to
`[10, 20, 30, 255]` — not exactly that pixel's channel values. -/
theorem C7_counterexample :
    bilinearSample [10, 20, 30, 0] 0 0 1 1 = [10, 20, 30, 255] ∧
    bilinearSample [10, 20, 30, 0] 0 0 1 1 ≠ [10, 20, 30, 0] := by
  have h : bilinearSample [10, 20, 30, 0] 0 0 1 1 = [10, 20, 30, 255] := by
    norm_num [bilinearSample, getPixel, readChan, jsRound]
    have h2 : ([10, 20, 30, 0] : List ℤ)[Int.toNat 2] = 30 := rfl
    have h3 : ([10, 20, 30, 0] : List ℤ)[Int.toNat 3] = 0 := rfl
    rw [h2, h3]
    norm_num
  exact ⟨h, by rw [h]; simp⟩

/-- C7 witness: the amended theorem applied to a 1×1 buffer with nonzero
alpha — the in-bounds integer sample is exactly the stored pixel. -/
theorem C7_witness :
    bilinearSample [5, 6, 7, 8] 0 0 1 1 = [5, 6, 7, 8] := by
  have h := C7_bilinear_amended.1 [5, 6, 7, 8] 1 1 0 0 5 6 7 8
    (by norm_num) (by norm_num) (by norm_num) (by norm_num)
    rfl rfl rfl rfl
  simpa using h

/-! ## C10 / C1: per-face culling and error propagation in the renderer -/

theorem mem_renderFaces {canvasWidth canvasHeight : ℚ} {faces : List Face}
    {f : Face} (h : f ∈ (renderFaces canvasWidth canvasHeight faces).1) :
    f ∈ faces ∧ shouldCullAnimation f canvasWidth canvasHeight = some false := by
  induction faces with
  | nil => cases h
  | cons g rest ih =>
    unfold renderFaces at h
    revert h
    cases hc : shouldCullAnimation g canvasWidth canvasHeight with
    | none => intro h; cases h
    | some culled =>
      cases culled with
      | true =>
        intro h
        obtain ⟨h1, h2⟩ := ih h
        exact ⟨List.mem_cons_of_mem g h1, h2⟩
      | false =>
        intro h
        rcases List.mem_cons.mp h with rfl | hmem
        · exact ⟨List.mem_cons_self _ _, hc⟩
        · obtain ⟨h1, h2⟩ := ih hmem
          exact ⟨List.mem_cons_of_mem g h1, h2⟩

/-- C10: a face whose nose tip, padded by `0.8 ×` face width, lies
entirely outside the canvas rectangle is never passed to the active
filter's `draw` — `render` culls it before the filter dispatch, for every
filter kind alike (the cull test precedes and is independent of the
selected filter), so the canvas is untouched for that face. -/
theorem C10_offscreen_face_not_drawn (filterActive : Bool)
    (canvasWidth canvasHeight : ℚ) (faces : List Face) (face : Face)
    (nt : LandmarkPoint) (dims : FaceDims)
    (hnt : (getFacePoints face).noseTip = some nt)
    (hdims : getFaceDimensions (getFacePoints face) = some dims)
    (houtside :
      nt.1 + dims.faceWidth * CULLING_MAX_FILTER_RADIUS_MULTIPLIER < 0 ∨
      canvasWidth < nt.1 - dims.faceWidth * CULLING_MAX_FILTER_RADIUS_MULTIPLIER ∨
      nt.2.1 + dims.faceWidth * CULLING_MAX_FILTER_RADIUS_MULTIPLIER < 0 ∨
      canvasHeight < nt.2.1 - dims.faceWidth * CULLING_MAX_FILTER_RADIUS_MULTIPLIER) :
    face ∉ (render filterActive canvasWidth canvasHeight faces).1 := by
  intro hmem
  have hdrawn : face ∈ (renderFaces canvasWidth canvasHeight faces).1 := by
    unfold render at hmem
    split_ifs at hmem with h
    · cases hmem
    · exact hmem
  have hcull : shouldCullAnimation face canvasWidth canvasHeight = some true := by
    unfold shouldCullAnimation
    dsimp only
    rw [hdims, hnt]
    have hview : isInViewport nt.1 nt.2.1
        (dims.faceWidth * CULLING_MAX_FILTER_RADIUS_MULTIPLIER)
        canvasWidth canvasHeight = false := by
      unfold isInViewport
      simp only [Bool.and_eq_false_iff, decide_eq_false_iff_not, not_le]
      tauto
    dsimp only
    rw [hview]
    rfl
  have := (mem_renderFaces hdrawn).2
  rw [hcull] at this
  cases this

theorem replicate_get?_lt {α : Type} (n i : ℕ) (a : α) (h : i < n) :
    (List.replicate n a).get? i = some a := by
  rw [List.get?_eq_getElem?, List.getElem?_replicate, if_pos h]

/-- C10 witness: a face whose every landmark sits at `(10000, 10000)` on a
640×480 canvas is culled — `render` invokes `draw` on no face. -/
theorem C10_witness :
    Face.mk (List.replicate 264 ((10000 : ℚ), (10000 : ℚ), (0 : ℚ))) ∉
      (render true 640 480
        [Face.mk (List.replicate 264 ((10000 : ℚ), (10000 : ℚ), (0 : ℚ)))]).1 := by
  apply C10_offscreen_face_not_drawn true 640 480 _ _
    ((10000 : ℚ), (10000 : ℚ), (0 : ℚ))
    { faceWidth := 0, faceHeight := 0, eyeCenter := (10000, 10000) }
  · show (List.replicate 264 ((10000 : ℚ), (10000 : ℚ), (0 : ℚ))).get? 1 = _
    exact replicate_get?_lt 264 1 _ (by norm_num)
  · unfold getFaceDimensions getFacePoints
    dsimp only
    rw [replicate_get?_lt 264 263 _ (by norm_num),
        replicate_get?_lt 264 33 _ (by norm_num),
        replicate_get?_lt 264 9 _ (by norm_num),
        replicate_get?_lt 264 1 _ (by norm_num)]
    norm_num
  · right; left
    norm_num [CULLING_MAX_FILTER_RADIUS_MULTIPLIER]

set_option maxRecDepth 8000 in
/-- C1: `FilterRenderer.render` on `[valid, malformed, valid]` — the
malformed face's missing landmark throws inside `shouldCullAnimation`,
*outside* the per-face `try/catch`, so the `forEach` aborts: only the
first face is drawn and the third (valid, on-screen) face is not, whereas
without the malformed face both valid faces are drawn.  This refutes
"skipped for that face only, other faces unaffected" for the code as
written. -/
theorem C1_malformed_face_aborts_forEach :
    render true 640 480
      [Face.mk (List.replicate 264 ((100 : ℚ), (100 : ℚ), (0 : ℚ))),
       Face.mk [],
       Face.mk (List.replicate 264 ((200 : ℚ), (200 : ℚ), (0 : ℚ)))] =
      ([Face.mk (List.replicate 264 ((100 : ℚ), (100 : ℚ), (0 : ℚ)))], true) ∧
    render true 640 480
      [Face.mk (List.replicate 264 ((100 : ℚ), (100 : ℚ), (0 : ℚ))),
       Face.mk (List.replicate 264 ((200 : ℚ), (200 : ℚ), (0 : ℚ)))] =
      ([Face.mk (List.replicate 264 ((100 : ℚ), (100 : ℚ), (0 : ℚ))),
        Face.mk (List.replicate 264 ((200 : ℚ), (200 : ℚ), (0 : ℚ)))], false) := by
  have hgood : ∀ q : ℚ, 0 ≤ q → q ≤ 480 →
      shouldCullAnimation (Face.mk (List.replicate 264 (q, q, 0))) 640 480 =
        some false := by
    intro q h0 h480
    unfold shouldCullAnimation getFaceDimensions getFacePoints
    dsimp only
    rw [replicate_get?_lt 264 263 _ (by norm_num),
        replicate_get?_lt 264 33 _ (by norm_num),
        replicate_get?_lt 264 9 _ (by norm_num),
        replicate_get?_lt 264 1 _ (by norm_num)]
    dsimp only
    unfold isInViewport
    norm_num [CULLING_MAX_FILTER_RADIUS_MULTIPLIER, h0, h480]
    linarith
  have hbad : shouldCullAnimation (Face.mk ([] : List LandmarkPoint)) 640 480 =
      none := rfl
  have h100 := hgood 100 (by norm_num) (by norm_num)
  have h200 := hgood 200 (by norm_num) (by norm_num)
  constructor
  · simp only [render, Bool.not_true, Bool.false_or, List.isEmpty_cons]
    rw [if_neg (by simp)]
    simp only [renderFaces, h100, h200, hbad]
  · simp only [render, Bool.not_true, Bool.false_or, List.isEmpty_cons]
    rw [if_neg (by simp)]
    simp only [renderFaces, h100, h200, hbad]

/-! ## C8 / C3: the inverse morph transform -/

theorem JSNum.maxJ_num_num (a b : ℚ) :
    JSNum.maxJ (JSNum.num a) (JSNum.num b) = JSNum.num (max a b) := rfl

theorem JSNum.gtb_nan_num_zero : JSNum.gtb JSNum.nan (JSNum.num 0) = false := rfl

/-- The face-slim influence is a finite number or `NaN` (never an
infinity): the only divisions are guarded so that a zero divisor forces a
zero dividend. -/
theorem calculateFaceSlimInfluence_numOrNaN (x y : ℚ) (lm : MorphLandmarks) :
    (calculateFaceSlimInfluence x y lm).numOrNaN := by
  unfold calculateFaceSlimInfluence
  dsimp only
  split_ifs with hg
  · exact Or.inl ⟨0, rfl⟩
  · push_neg at hg
    obtain ⟨hdx, hdy⟩ := hg
    by_cases hfw : |lm.faceRight.1 - lm.faceLeft.1| = 0
    · have hdx0 : |x - (lm.faceLeft.1 + lm.faceRight.1) / 2| = 0 := by
        have h1 : (0 : ℚ) ≤ |x - (lm.faceLeft.1 + lm.faceRight.1) / 2| :=
          abs_nonneg _
        have h2 : |lm.faceRight.1 - lm.faceLeft.1| * MORPH_FACE_WIDTH_INFLUENCE
            = 0 := by rw [hfw]; ring
        linarith [hdx, h2.symm.le]
      rw [hdx0, hfw]
      norm_num
      rw [JSNum.div_zero_zero, JSNum.sub_nan_right, JSNum.maxJ_num_nan,
        JSNum.mul_nan_left, JSNum.mul_nan_left]
      exact Or.inr rfl
    · have hfw3 : |lm.faceRight.1 - lm.faceLeft.1| * (0.3 : ℚ) ≠ 0 := by
        intro hc
        exact hfw (by
          rcases mul_eq_zero.mp hc with h | h
          · exact h
          · norm_num at h)
      rw [JSNum.div_num_num_of_ne hfw3, JSNum.sub_num, JSNum.maxJ_num_num]
      by_cases hfh : |lm.foreheadCenter.2 - lm.chinTip.2| = 0
      · have hdy0 : |y - (lm.foreheadCenter.2 + lm.chinTip.2) / 2| = 0 := by
          have h1 : (0 : ℚ) ≤ |y - (lm.foreheadCenter.2 + lm.chinTip.2) / 2| :=
            abs_nonneg _
          have h2 : |lm.foreheadCenter.2 - lm.chinTip.2| *
              MORPH_FACE_HEIGHT_INFLUENCE = 0 := by rw [hfh]; ring
          linarith [hdy, h2.symm.le]
        rw [hdy0, hfh]
        norm_num
        rw [JSNum.div_zero_zero, JSNum.sub_nan_right, JSNum.maxJ_num_nan,
          JSNum.mul_nan_right, JSNum.mul_nan_left]
        exact Or.inr rfl
      · have hfh6 : |lm.foreheadCenter.2 - lm.chinTip.2| * (0.6 : ℚ) ≠ 0 := by
          intro hc
          exact hfh (by
            rcases mul_eq_zero.mp hc with h | h
            · exact h
            · norm_num at h)
        rw [JSNum.div_num_num_of_ne hfh6, JSNum.sub_num, JSNum.maxJ_num_num,
          JSNum.mul_num, JSNum.mul_num]
        exact Or.inl ⟨_, rfl⟩

/-- The `Math.sqrt` applied to a finite, non-negative number yields a finite
non-negative number, for any `JSMath` implementation. -/
theorem JSMath.sqrt_nonneg_num (jm : JSMath) {s : ℚ} (hs : 0 ≤ s) :
    ∃ r : ℚ, 0 ≤ r ∧ (0 < s → 0 < r) ∧ (s = 0 → r = 0) ∧
      jm.sqrt (JSNum.num s) = JSNum.num r := by
  rcases hs.eq_or_lt with h0 | hpos
  · exact ⟨0, le_refl 0, fun hc => absurd h0 (ne_of_lt hc), fun _ => rfl,
      by rw [← h0]; exact jm.sqrt_zero⟩
  · obtain ⟨r, hr, heq⟩ := jm.sqrt_pos s hpos
    exact ⟨r, hr.le, fun _ => hr, fun hc => absurd hc (ne_of_gt hpos), heq⟩

/-- The cosine-falloff computation applied to a finite angle numerator is
finite-or-NaN; applied to `NaN` it is `NaN`. -/
theorem falloff_numOrNaN (jm : JSMath) (nd : JSNum) (hnd : nd.numOrNaN)
    (e : ℚ) (extreme : Bool) :
    (if extreme then
        jm.pow (jm.cos (JSNum.div (JSNum.mul nd (JSNum.num jm.pi)) (JSNum.num 2))) e
      else jm.cos (JSNum.div (JSNum.mul nd (JSNum.num jm.pi)) (JSNum.num 2))).numOrNaN := by
  rcases hnd with ⟨q, hq⟩ | hq <;> subst hq
  · rw [JSNum.mul_num, JSNum.div_num_num_of_ne (by norm_num : (2:ℚ) ≠ 0)]
    obtain ⟨c, _, hc⟩ := jm.cos_num (q * jm.pi / 2)
    rw [hc]
    cases extreme with
    | true =>
      simp only [if_true]
      rcases jm.pow_num c e with ⟨r, hr⟩ | hr
      · exact Or.inl ⟨r, hr⟩
      · exact Or.inr hr
    | false => exact Or.inl ⟨c, by simp⟩
  · rw [JSNum.mul_nan_left, JSNum.div_nan_left, jm.cos_nan]
    cases extreme with
    | true => simp only [if_true]; exact Or.inr (jm.pow_nan e)
    | false => exact Or.inr rfl

/-- The eye influence is a finite number or `NaN` (never an infinity). -/
theorem calculateEyeInfluence_numOrNaN (jm : JSMath) (p : MorphParams)
    (x y : ℚ) (c : ℚ × ℚ) (lm : MorphLandmarks) :
    (calculateEyeInfluence jm p x y c lm).numOrNaN := by
  unfold calculateEyeInfluence
  dsimp only
  obtain ⟨r, hr0, _, _, heq⟩ := jm.sqrt_nonneg_num
    (by positivity : (0:ℚ) ≤ (x - c.1) ^ 2 + (y - c.2) ^ 2)
  rw [heq]
  set er := |lm.leftEyeOuter.1 - lm.leftEyeInner.1| * MORPH_EYE_REGION_MULTIPLIER *
    (if 2 < p.eyeScaleFactor then MORPH_EYE_EXTREME_MULTIPLIER else 1) with her
  by_cases hgt : er < r
  · rw [if_pos (by rw [JSNum.gtb_num_num]; exact decide_eq_true hgt)]
    exact Or.inl ⟨0, rfl⟩
  · rw [if_neg (by rw [JSNum.gtb_num_num]; simp [hgt])]
    by_cases her0 : er = 0
    · have hr00 : r = 0 := le_antisymm (her0 ▸ not_lt.mp hgt) hr0
      rw [her0, hr00, JSNum.div_zero_zero]
      have h := falloff_numOrNaN jm JSNum.nan (Or.inr rfl) 0.7
        (decide (2 < p.eyeScaleFactor))
      simpa [decide_eq_true_eq] using h
    · rw [JSNum.div_num_num_of_ne her0]
      have h := falloff_numOrNaN jm (JSNum.num (r / er)) (Or.inl ⟨_, rfl⟩) 0.7
        (decide (2 < p.eyeScaleFactor))
      simpa [decide_eq_true_eq] using h

/-- The `Math.sqrt(u² + v²)` for arbitrary JavaScript values `u, v` is `+∞`,
a finite non-negative number, or `NaN`. -/
theorem sqrtSumSquares_cases (jm : JSMath) (u v : JSNum) :
    jm.sqrt (JSNum.add (JSNum.mul u u) (JSNum.mul v v)) = JSNum.inf ∨
    (∃ r : ℚ, 0 ≤ r ∧
      jm.sqrt (JSNum.add (JSNum.mul u u) (JSNum.mul v v)) = JSNum.num r) ∨
    jm.sqrt (JSNum.add (JSNum.mul u u) (JSNum.mul v v)) = JSNum.nan := by
  cases u with
  | num a =>
    cases v with
    | num b =>
      rw [JSNum.mul_num, JSNum.mul_num, JSNum.add_num]
      obtain ⟨r, hr0, _, _, heq⟩ := jm.sqrt_nonneg_num
        (add_nonneg (mul_self_nonneg a) (mul_self_nonneg b))
      exact Or.inr (Or.inl ⟨r, hr0, heq⟩)
    | nan => exact Or.inr (Or.inr (by simp [JSNum.mul, JSNum.add, jm.sqrt_nan]))
    | inf => exact Or.inl (by simp [JSNum.mul, JSNum.add, jm.sqrt_inf])
    | ninf => exact Or.inl (by simp [JSNum.mul, JSNum.add, jm.sqrt_inf])
  | nan =>
    refine Or.inr (Or.inr ?_)
    cases v <;> simp [JSNum.mul, JSNum.add, jm.sqrt_nan]
  | inf =>
    cases v with
    | num b => exact Or.inl (by simp [JSNum.mul, JSNum.add, jm.sqrt_inf])
    | nan => exact Or.inr (Or.inr (by simp [JSNum.mul, JSNum.add, jm.sqrt_nan]))
    | inf => exact Or.inl (by simp [JSNum.mul, JSNum.add, jm.sqrt_inf])
    | ninf => exact Or.inl (by simp [JSNum.mul, JSNum.add, jm.sqrt_inf])
  | ninf =>
    cases v with
    | num b => exact Or.inl (by simp [JSNum.mul, JSNum.add, jm.sqrt_inf])
    | nan => exact Or.inr (Or.inr (by simp [JSNum.mul, JSNum.add, jm.sqrt_nan]))
    | inf => exact Or.inl (by simp [JSNum.mul, JSNum.add, jm.sqrt_inf])
    | ninf => exact Or.inl (by simp [JSNum.mul, JSNum.add, jm.sqrt_inf])

/-- The elliptical-falloff body shared by the mouth influence: whatever
the normalised radii, the result is a finite number or `NaN`. -/
theorem ellipticalFalloff_numOrNaN (jm : JSMath) (a b rx ry : ℚ)
    (cond : Prop) [Decidable cond] (e : ℚ) :
    (let nx := JSNum.div (JSNum.num a) (JSNum.num rx)
     let ny := JSNum.div (JSNum.num b) (JSNum.num ry)
     let ed := jm.sqrt (JSNum.add (JSNum.mul nx nx) (JSNum.mul ny ny))
     if JSNum.gtb ed (JSNum.num 1) then JSNum.num 0
     else if cond then
       jm.pow (jm.cos (JSNum.div (JSNum.mul ed (JSNum.num jm.pi)) (JSNum.num 2))) e
     else
       jm.cos (JSNum.div (JSNum.mul ed (JSNum.num jm.pi)) (JSNum.num 2))).numOrNaN := by
  dsimp only
  rcases sqrtSumSquares_cases jm (JSNum.div (JSNum.num a) (JSNum.num rx))
      (JSNum.div (JSNum.num b) (JSNum.num ry)) with h | ⟨r, hr0, h⟩ | h <;> rw [h]
  · rw [if_pos (show JSNum.gtb JSNum.inf (JSNum.num 1) = true from rfl)]
    exact Or.inl ⟨0, rfl⟩
  · by_cases h1 : 1 < r
    · rw [if_pos (by rw [JSNum.gtb_num_num]; exact decide_eq_true h1)]
      exact Or.inl ⟨0, rfl⟩
    · rw [if_neg (by rw [JSNum.gtb_num_num]; simp [h1])]
      have hf := falloff_numOrNaN jm (JSNum.num r) (Or.inl ⟨_, rfl⟩) e (decide cond)
      simpa [decide_eq_true_eq] using hf
  · rw [if_neg (by rw [show JSNum.gtb JSNum.nan (JSNum.num 1) = false from rfl]; simp)]
    have hf := falloff_numOrNaN jm JSNum.nan (Or.inr rfl) e (decide cond)
    simpa [decide_eq_true_eq] using hf

/-- The elliptical-falloff body with the let-bindings expanded. -/
theorem mouthBody_numOrNaN (jm : JSMath) (A B RX RY : ℚ)
    (cond : Prop) [Decidable cond] (e : ℚ) :
    (if JSNum.gtb
        (jm.sqrt (JSNum.add
          (JSNum.mul (JSNum.div (JSNum.num A) (JSNum.num RX))
            (JSNum.div (JSNum.num A) (JSNum.num RX)))
          (JSNum.mul (JSNum.div (JSNum.num B) (JSNum.num RY))
            (JSNum.div (JSNum.num B) (JSNum.num RY)))))
        (JSNum.num 1) then JSNum.num 0
     else if cond then
       jm.pow (jm.cos (JSNum.div (JSNum.mul
         (jm.sqrt (JSNum.add
           (JSNum.mul (JSNum.div (JSNum.num A) (JSNum.num RX))
             (JSNum.div (JSNum.num A) (JSNum.num RX)))
           (JSNum.mul (JSNum.div (JSNum.num B) (JSNum.num RY))
             (JSNum.div (JSNum.num B) (JSNum.num RY)))))
         (JSNum.num jm.pi)) (JSNum.num 2))) e
     else
       jm.cos (JSNum.div (JSNum.mul
         (jm.sqrt (JSNum.add
           (JSNum.mul (JSNum.div (JSNum.num A) (JSNum.num RX))
             (JSNum.div (JSNum.num A) (JSNum.num RX)))
           (JSNum.mul (JSNum.div (JSNum.num B) (JSNum.num RY))
             (JSNum.div (JSNum.num B) (JSNum.num RY)))))
         (JSNum.num jm.pi)) (JSNum.num 2))).numOrNaN := by
  have h := ellipticalFalloff_numOrNaN jm A B RX RY cond e
  dsimp only at h
  exact h

/-- The mouth influence is a finite number or `NaN` (never an infinity). -/
theorem calculateMouthInfluence_numOrNaN (jm : JSMath) (p : MorphParams)
    (x y : ℚ) (mc : Option (ℚ × ℚ)) (lm : MorphLandmarks) :
    (calculateMouthInfluence jm p x y mc lm).numOrNaN := by
  unfold calculateMouthInfluence
  cases mc with
  | none => exact Or.inl ⟨0, rfl⟩
  | some mc =>
    dsimp only
    cases hb : lm.mouthBottomCenter with
    | none =>
      dsimp only
      exact mouthBody_numOrNaN jm (x - mc.1) (y - mc.2) _ _
        (1.8 < p.mouthScaleFactor) 0.6
    | some bb =>
      cases ht : lm.mouthTopCenter with
      | none =>
        dsimp only
        exact mouthBody_numOrNaN jm (x - mc.1) (y - mc.2) _ _
          (1.8 < p.mouthScaleFactor) 0.6
      | some tt =>
        dsimp only
        exact mouthBody_numOrNaN jm (x - mc.1) (y - mc.2) _ _
          (1.8 < p.mouthScaleFactor) 0.6

theorem JSNum.div_one_one : JSNum.div (JSNum.num 1) (JSNum.num 1) = JSNum.num 1 := by
  norm_num [JSNum.div]

/-- At intensity 0, one scale-reversal block is the identity whenever its
influence is a finite number or `NaN`. -/
theorem scaleReversal_zero_id (F : JSNum) (hF : F.numOrNaN) (sf : ℚ)
    (c : ℚ × ℚ) (x y : ℚ) :
    scaleReversal 0 F sf c (JSNum.num x, JSNum.num y) = (JSNum.num x, JSNum.num y) := by
  unfold scaleReversal
  rcases hF with ⟨q, hq⟩ | hq <;> subst hq
  · by_cases hpos : 0 < q
    · rw [if_pos (by rw [JSNum.gtb_num_num]; exact decide_eq_true hpos)]
      dsimp only
      simp only [JSNum.mul_num, mul_zero, JSNum.add_num, add_zero,
        JSNum.div_one_one, JSNum.sub_num, mul_one, Prod.mk.injEq]
      constructor <;> (congr 1; ring)
    · rw [if_neg (by rw [JSNum.gtb_num_num]; simp [hpos])]
  · rw [if_neg (by rw [JSNum.gtb_nan_num_zero]; simp)]

/-- At intensity 0, the face-slim reversal block is the identity whenever
its influence is a finite number or `NaN`. -/
theorem faceSlimReversal_zero_id (F : JSNum) (hF : F.numOrNaN) (slim fc x : ℚ) :
    (if JSNum.gtb F (JSNum.num 0) then
      JSNum.add (JSNum.num fc)
        (JSNum.mul (JSNum.sub (JSNum.num x) (JSNum.num fc))
          (JSNum.div (JSNum.num 1)
            (JSNum.sub (JSNum.num 1)
              (JSNum.mul (JSNum.mul (JSNum.num (1 - slim)) F) (JSNum.num 0)))))
     else JSNum.num x) = JSNum.num x := by
  rcases hF with ⟨q, hq⟩ | hq <;> subst hq
  · by_cases hpos : 0 < q
    · rw [if_pos (by rw [JSNum.gtb_num_num]; exact decide_eq_true hpos)]
      simp only [JSNum.mul_num, mul_zero, JSNum.sub_num, sub_zero,
        JSNum.div_one_one, mul_one, JSNum.add_num]
      congr 1
      ring
    · rw [if_neg (by rw [JSNum.gtb_num_num]; simp [hpos])]
  · rw [if_neg (by rw [JSNum.gtb_nan_num_zero]; simp)]

/-- C8: at morph intensity 0 for all deformations, `inverseTransformPoint`
returns every point unchanged — the inverse transform is the identity. -/
theorem C8_zero_intensity_identity (jm : JSMath) (p : MorphParams)
    (lm : MorphLandmarks) (x y : ℚ) (h : p.intensity = 0) :
    inverseTransformPoint jm p x y lm = (JSNum.num x, JSNum.num y) := by
  unfold inverseTransformPoint
  rw [h]
  dsimp only
  rw [faceSlimReversal_zero_id _ (calculateFaceSlimInfluence_numOrNaN x y lm)]
  rw [scaleReversal_zero_id _ (calculateEyeInfluence_numOrNaN jm p x y lm.leftEyeCenter lm)]
  rw [scaleReversal_zero_id _ (calculateEyeInfluence_numOrNaN jm p x y lm.rightEyeCenter lm)]
  cases hmc : lm.mouthCenter with
  | none => rfl
  | some mc =>
    dsimp only
    rw [scaleReversal_zero_id _ (calculateMouthInfluence_numOrNaN jm p x y (some mc) lm)]

theorem JSNum.gtb_zero_false_of_zero_or_nan {F : JSNum}
    (h : F = JSNum.num 0 ∨ F = JSNum.nan) :
    JSNum.gtb F (JSNum.num 0) = false := by
  rcases h with h | h <;> subst h
  · rw [JSNum.gtb_num_num]; simp
  · rfl

/-- A scale-reversal block whose influence fails the `> 0` guard leaves
the running point unchanged. -/
theorem scaleReversal_skip (it : ℚ) {F : JSNum}
    (h : JSNum.gtb F (JSNum.num 0) = false) (sf : ℚ) (c : ℚ × ℚ)
    (cur : JSNum × JSNum) : scaleReversal it F sf c cur = cur := by
  unfold scaleReversal
  rw [if_neg (by simp [h])]

/-- With a zero-width eye region (`leftEyeOuter.x = leftEyeInner.x`) the
eye influence is `0` away from the eye centre and `NaN` exactly at it —
never a positive value and never an infinity. -/
theorem calculateEyeInfluence_degenerate (jm : JSMath) (p : MorphParams)
    (x y : ℚ) (c : ℚ × ℚ) (lm : MorphLandmarks)
    (hdeg : lm.leftEyeOuter.1 = lm.leftEyeInner.1) :
    calculateEyeInfluence jm p x y c lm = JSNum.num 0 ∨
    calculateEyeInfluence jm p x y c lm = JSNum.nan := by
  unfold calculateEyeInfluence
  dsimp only
  have her : |lm.leftEyeOuter.1 - lm.leftEyeInner.1| * MORPH_EYE_REGION_MULTIPLIER *
      (if 2 < p.eyeScaleFactor then MORPH_EYE_EXTREME_MULTIPLIER else 1) = 0 := by
    rw [hdeg, sub_self, abs_zero, zero_mul, zero_mul]
  rw [her]
  obtain ⟨r, hr0, _, _, heq⟩ := jm.sqrt_nonneg_num
    (by positivity : (0:ℚ) ≤ (x - c.1) ^ 2 + (y - c.2) ^ 2)
  rw [heq]
  rcases hr0.eq_or_lt with h0 | hpos
  · rw [← h0]
    rw [if_neg (by rw [JSNum.gtb_num_num]; simp)]
    rw [JSNum.div_zero_zero]
    right
    split_ifs
    · rw [JSNum.mul_nan_left, JSNum.div_nan_left, jm.cos_nan, jm.pow_nan]
    · rw [JSNum.mul_nan_left, JSNum.div_nan_left, jm.cos_nan]
  · rw [if_pos (by rw [JSNum.gtb_num_num]; exact decide_eq_true hpos)]
    exact Or.inl rfl

/-- With a zero-width or zero-height face region the face-slim influence
is `0` away from the face centre line and `NaN` on it. -/
theorem calculateFaceSlimInfluence_degenerate (x y : ℚ) (lm : MorphLandmarks)
    (hdeg : lm.faceLeft.1 = lm.faceRight.1 ∨ lm.foreheadCenter.2 = lm.chinTip.2) :
    calculateFaceSlimInfluence x y lm = JSNum.num 0 ∨
    calculateFaceSlimInfluence x y lm = JSNum.nan := by
  unfold calculateFaceSlimInfluence
  dsimp only
  split_ifs with hg
  · exact Or.inl rfl
  · push_neg at hg
    obtain ⟨hdx, hdy⟩ := hg
    rcases hdeg with hw | hh
    · have hfw : |lm.faceRight.1 - lm.faceLeft.1| = 0 := by
        rw [hw, sub_self, abs_zero]
      have hdx0 : |x - (lm.faceLeft.1 + lm.faceRight.1) / 2| = 0 := by
        have h1 : (0 : ℚ) ≤ |x - (lm.faceLeft.1 + lm.faceRight.1) / 2| :=
          abs_nonneg _
        have h2 : |lm.faceRight.1 - lm.faceLeft.1| * MORPH_FACE_WIDTH_INFLUENCE
            = 0 := by rw [hfw]; ring
        linarith [hdx, h2.symm.le]
      rw [hdx0, hfw]
      norm_num
      rw [JSNum.div_zero_zero, JSNum.sub_nan_right, JSNum.maxJ_num_nan,
        JSNum.mul_nan_left, JSNum.mul_nan_left]
      exact Or.inr rfl
    · have hfh : |lm.foreheadCenter.2 - lm.chinTip.2| = 0 := by
        rw [hh, sub_self, abs_zero]
      have hdy0 : |y - (lm.foreheadCenter.2 + lm.chinTip.2) / 2| = 0 := by
        have h1 : (0 : ℚ) ≤ |y - (lm.foreheadCenter.2 + lm.chinTip.2) / 2| :=
          abs_nonneg _
        have h2 : |lm.foreheadCenter.2 - lm.chinTip.2| *
            MORPH_FACE_HEIGHT_INFLUENCE = 0 := by rw [hfh]; ring
        linarith [hdy, h2.symm.le]
      rw [hdy0, hfh]
      norm_num
      rw [JSNum.div_zero_zero, JSNum.sub_nan_right, JSNum.maxJ_num_nan,
        JSNum.mul_nan_right, JSNum.mul_nan_left]
      exact Or.inr rfl

theorem JSNum.add_nan_left (v : JSNum) : JSNum.add JSNum.nan v = JSNum.nan := by
  cases v <;> rfl

theorem JSNum.div_num_zero_pos {a : ℚ} (h : 0 < a) :
    JSNum.div (JSNum.num a) (JSNum.num 0) = JSNum.inf := by
  simp [JSNum.div, h]

theorem JSNum.div_num_zero_neg {a : ℚ} (h : a < 0) :
    JSNum.div (JSNum.num a) (JSNum.num 0) = JSNum.ninf := by
  simp [JSNum.div, h, asymm h]

/-- The cosine falloff of a `NaN` elliptical distance is `NaN`. -/
theorem falloffBranch_nan (jm : JSMath) (cond : Prop) [Decidable cond] (e : ℚ) :
    (if cond then
      jm.pow (jm.cos (JSNum.div (JSNum.mul JSNum.nan (JSNum.num jm.pi))
        (JSNum.num 2))) e
     else
      jm.cos (JSNum.div (JSNum.mul JSNum.nan (JSNum.num jm.pi))
        (JSNum.num 2))) = JSNum.nan := by
  split_ifs
  · rw [JSNum.mul_nan_left, JSNum.div_nan_left, jm.cos_nan, jm.pow_nan]
  · rw [JSNum.mul_nan_left, JSNum.div_nan_left, jm.cos_nan]

/-- The elliptical-falloff body with a zero x-radius evaluates to `0` or
`NaN`, whatever the y-radius: a nonzero x-offset gives an infinite
normalised distance (influence 0), a zero x-offset gives `0/0 = NaN`. -/
theorem mouthBody_degenerate (jm : JSMath) (A B RY : ℚ)
    (cond : Prop) [Decidable cond] (e : ℚ) :
    (if JSNum.gtb
        (jm.sqrt (JSNum.add
          (JSNum.mul (JSNum.div (JSNum.num A) (JSNum.num 0))
            (JSNum.div (JSNum.num A) (JSNum.num 0)))
          (JSNum.mul (JSNum.div (JSNum.num B) (JSNum.num RY))
            (JSNum.div (JSNum.num B) (JSNum.num RY)))))
        (JSNum.num 1) then JSNum.num 0
     else if cond then
       jm.pow (jm.cos (JSNum.div (JSNum.mul
         (jm.sqrt (JSNum.add
           (JSNum.mul (JSNum.div (JSNum.num A) (JSNum.num 0))
             (JSNum.div (JSNum.num A) (JSNum.num 0)))
           (JSNum.mul (JSNum.div (JSNum.num B) (JSNum.num RY))
             (JSNum.div (JSNum.num B) (JSNum.num RY)))))
         (JSNum.num jm.pi)) (JSNum.num 2))) e
     else
       jm.cos (JSNum.div (JSNum.mul
         (jm.sqrt (JSNum.add
           (JSNum.mul (JSNum.div (JSNum.num A) (JSNum.num 0))
             (JSNum.div (JSNum.num A) (JSNum.num 0)))
           (JSNum.mul (JSNum.div (JSNum.num B) (JSNum.num RY))
             (JSNum.div (JSNum.num B) (JSNum.num RY)))))
         (JSNum.num jm.pi)) (JSNum.num 2))) = JSNum.num 0 ∨
    (if JSNum.gtb
        (jm.sqrt (JSNum.add
          (JSNum.mul (JSNum.div (JSNum.num A) (JSNum.num 0))
            (JSNum.div (JSNum.num A) (JSNum.num 0)))
          (JSNum.mul (JSNum.div (JSNum.num B) (JSNum.num RY))
            (JSNum.div (JSNum.num B) (JSNum.num RY)))))
        (JSNum.num 1) then JSNum.num 0
     else if cond then
       jm.pow (jm.cos (JSNum.div (JSNum.mul
         (jm.sqrt (JSNum.add
           (JSNum.mul (JSNum.div (JSNum.num A) (JSNum.num 0))
             (JSNum.div (JSNum.num A) (JSNum.num 0)))
           (JSNum.mul (JSNum.div (JSNum.num B) (JSNum.num RY))
             (JSNum.div (JSNum.num B) (JSNum.num RY)))))
         (JSNum.num jm.pi)) (JSNum.num 2))) e
     else
       jm.cos (JSNum.div (JSNum.mul
         (jm.sqrt (JSNum.add
           (JSNum.mul (JSNum.div (JSNum.num A) (JSNum.num 0))
             (JSNum.div (JSNum.num A) (JSNum.num 0)))
           (JSNum.mul (JSNum.div (JSNum.num B) (JSNum.num RY))
             (JSNum.div (JSNum.num B) (JSNum.num RY)))))
         (JSNum.num jm.pi)) (JSNum.num 2))) = JSNum.nan := by
  have hA2 : JSNum.mul (JSNum.div (JSNum.num A) (JSNum.num 0))
        (JSNum.div (JSNum.num A) (JSNum.num 0)) = JSNum.inf ∨
      JSNum.mul (JSNum.div (JSNum.num A) (JSNum.num 0))
        (JSNum.div (JSNum.num A) (JSNum.num 0)) = JSNum.nan := by
    rcases lt_trichotomy A 0 with h | h | h
    · rw [JSNum.div_num_zero_neg h]; exact Or.inl rfl
    · rw [h, JSNum.div_zero_zero]; exact Or.inr rfl
    · rw [JSNum.div_num_zero_pos h]; exact Or.inl rfl
  rcases hA2 with h2 | h2 <;> rw [h2]
  · cases hB : JSNum.mul (JSNum.div (JSNum.num B) (JSNum.num RY))
        (JSNum.div (JSNum.num B) (JSNum.num RY)) with
    | num q =>
      rw [show JSNum.add JSNum.inf (JSNum.num q) = JSNum.inf from rfl, jm.sqrt_inf,
        if_pos (show JSNum.gtb JSNum.inf (JSNum.num 1) = true from rfl)]
      exact Or.inl rfl
    | nan =>
      rw [show JSNum.add JSNum.inf JSNum.nan = JSNum.nan from rfl, jm.sqrt_nan,
        if_neg (by rw [show JSNum.gtb JSNum.nan (JSNum.num 1) = false from rfl]; simp)]
      exact Or.inr (falloffBranch_nan jm cond e)
    | inf =>
      rw [show JSNum.add JSNum.inf JSNum.inf = JSNum.inf from rfl, jm.sqrt_inf,
        if_pos (show JSNum.gtb JSNum.inf (JSNum.num 1) = true from rfl)]
      exact Or.inl rfl
    | ninf =>
      rw [show JSNum.add JSNum.inf JSNum.ninf = JSNum.nan from rfl, jm.sqrt_nan,
        if_neg (by rw [show JSNum.gtb JSNum.nan (JSNum.num 1) = false from rfl]; simp)]
      exact Or.inr (falloffBranch_nan jm cond e)
  · rw [JSNum.add_nan_left, jm.sqrt_nan,
      if_neg (by rw [show JSNum.gtb JSNum.nan (JSNum.num 1) = false from rfl]; simp)]
    exact Or.inr (falloffBranch_nan jm cond e)

/-- With a zero-width mouth region (coinciding mouth corners) the mouth
influence is `0` or `NaN`, never positive. -/
theorem calculateMouthInfluence_degenerate (jm : JSMath) (p : MorphParams)
    (x y : ℚ) (mc : Option (ℚ × ℚ)) (lm : MorphLandmarks)
    (hdeg : lm.mouthLeftCorner.1 = lm.mouthRightCorner.1) :
    calculateMouthInfluence jm p x y mc lm = JSNum.num 0 ∨
    calculateMouthInfluence jm p x y mc lm = JSNum.nan := by
  unfold calculateMouthInfluence
  cases mc with
  | none => exact Or.inl rfl
  | some mc =>
    dsimp only
    have hmw : |lm.mouthRightCorner.1 - lm.mouthLeftCorner.1| = 0 := by
      rw [hdeg, sub_self, abs_zero]
    cases hb : lm.mouthBottomCenter with
    | none =>
      dsimp only
      simp only [hmw, zero_mul]
      exact mouthBody_degenerate jm (x - mc.1) (y - mc.2) _
        (1.8 < p.mouthScaleFactor) 0.6
    | some bb =>
      cases ht : lm.mouthTopCenter with
      | none =>
        dsimp only
        simp only [hmw, zero_mul]
        exact mouthBody_degenerate jm (x - mc.1) (y - mc.2) _
          (1.8 < p.mouthScaleFactor) 0.6
      | some tt =>
        dsimp only
        simp only [hmw, zero_mul]
        exact mouthBody_degenerate jm (x - mc.1) (y - mc.2) _
          (1.8 < p.mouthScaleFactor) 0.6

/-- C3 (amended): when the landmark pairs defining the deformation widths
coincide (zero-width eye region, zero-width mouth region, zero-width or
zero-height face region), every influence computation returns either
exactly `0` or — at the degenerate centre itself, where the code divides
`0/0` — `NaN`; the `influence > 0` guards treat both as "no influence",
so `inverseTransformPoint` leaves every point `(x, y)` unchanged.  No
infinity and no thrown error arises. -/
theorem C3_degenerate_influence_amended (jm : JSMath) (p : MorphParams)
    (lm : MorphLandmarks) (x y : ℚ)
    (he : lm.leftEyeOuter.1 = lm.leftEyeInner.1)
    (hm : lm.mouthLeftCorner.1 = lm.mouthRightCorner.1)
    (hf : lm.faceLeft.1 = lm.faceRight.1 ∨ lm.foreheadCenter.2 = lm.chinTip.2) :
    (calculateEyeInfluence jm p x y lm.leftEyeCenter lm = JSNum.num 0 ∨
      calculateEyeInfluence jm p x y lm.leftEyeCenter lm = JSNum.nan) ∧
    (calculateEyeInfluence jm p x y lm.rightEyeCenter lm = JSNum.num 0 ∨
      calculateEyeInfluence jm p x y lm.rightEyeCenter lm = JSNum.nan) ∧
    (calculateMouthInfluence jm p x y lm.mouthCenter lm = JSNum.num 0 ∨
      calculateMouthInfluence jm p x y lm.mouthCenter lm = JSNum.nan) ∧
    (calculateFaceSlimInfluence x y lm = JSNum.num 0 ∨
      calculateFaceSlimInfluence x y lm = JSNum.nan) ∧
    inverseTransformPoint jm p x y lm = (JSNum.num x, JSNum.num y) := by
  have hle := calculateEyeInfluence_degenerate jm p x y lm.leftEyeCenter lm he
  have hre := calculateEyeInfluence_degenerate jm p x y lm.rightEyeCenter lm he
  have hmo := calculateMouthInfluence_degenerate jm p x y lm.mouthCenter lm hm
  have hfa := calculateFaceSlimInfluence_degenerate x y lm hf
  refine ⟨hle, hre, hmo, hfa, ?_⟩
  unfold inverseTransformPoint
  dsimp only
  rw [if_neg (by simp [JSNum.gtb_zero_false_of_zero_or_nan hfa])]
  rw [scaleReversal_skip _ (JSNum.gtb_zero_false_of_zero_or_nan hle)]
  rw [scaleReversal_skip _ (JSNum.gtb_zero_false_of_zero_or_nan hre)]
  cases hmc : lm.mouthCenter with
  | none => rfl
  | some mc =>
    dsimp only
    rw [hmc] at hmo
    rw [scaleReversal_skip _ (JSNum.gtb_zero_false_of_zero_or_nan hmo)]

/-- C3 counterexample: with a zero-width eye region (all eye landmarks at
`(10, 20)`), the eye influence evaluated *at* the eye centre is `NaN` —
the division `0/0` — and not the zero influence the claim asserts for
every point. -/
theorem C3_counterexample :
    calculateEyeInfluence jsMathModel (adjustForPerformance PerfLevel.high) 10 20
      (10, 20)
      { leftEyeCenter := (10, 20), rightEyeCenter := (10, 20),
        leftEyeInner := (10, 20), leftEyeOuter := (10, 20),
        faceLeft := (10, 20), faceRight := (10, 20), chinTip := (10, 20),
        foreheadCenter := (10, 20), mouthLeftCorner := (10, 20),
        mouthRightCorner := (10, 20), mouthTopCenter := none,
        mouthBottomCenter := none, mouthCenter := some (10, 20) } = JSNum.nan ∧
    JSNum.nan ≠ JSNum.num 0 := by
  constructor
  · unfold calculateEyeInfluence
    dsimp only
    norm_num [adjustForPerformance, MORPH_CONFIG, MORPH_EYE_REGION_MULTIPLIER,
      MORPH_EYE_EXTREME_MULTIPLIER]
    norm_num [jsMathModel]
    rw [JSNum.div_zero_zero, JSNum.mul_nan_left, JSNum.div_nan_left]
    rw [if_neg (by rw [JSNum.gtb_num_num]; simp)]
  · simp

/-- C3 witness: the amended theorem applied to the fully degenerate
landmark set at the concrete point `(7, 9)`. -/
theorem C3_witness :
    inverseTransformPoint jsMathModel (adjustForPerformance PerfLevel.high) 7 9
      { leftEyeCenter := (10, 20), rightEyeCenter := (10, 20),
        leftEyeInner := (10, 20), leftEyeOuter := (10, 20),
        faceLeft := (10, 20), faceRight := (10, 20), chinTip := (10, 20),
        foreheadCenter := (10, 20), mouthLeftCorner := (10, 20),
        mouthRightCorner := (10, 20), mouthTopCenter := none,
        mouthBottomCenter := none, mouthCenter := some (10, 20) } =
      (JSNum.num 7, JSNum.num 9) :=
  (C3_degenerate_influence_amended jsMathModel (adjustForPerformance PerfLevel.high)
    _ 7 9 rfl rfl (Or.inl rfl)).2.2.2.2

/-- C8 witness: the identity at intensity 0 on a concrete, non-degenerate
landmark set and the concrete point `(123, 456)`. -/
theorem C8_witness :
    inverseTransformPoint jsMathModel
      { intensity := 0, eyeScaleFactor := 2.5, mouthScaleFactor := 2.2,
        faceSlimFactor := 0.85 } 123 456
      { leftEyeCenter := (110, 100), rightEyeCenter := (200, 100),
        leftEyeInner := (120, 100), leftEyeOuter := (100, 100),
        faceLeft := (50, 150), faceRight := (260, 150), chinTip := (150, 260),
        foreheadCenter := (150, 40), mouthLeftCorner := (120, 210),
        mouthRightCorner := (180, 210), mouthTopCenter := some (150, 200),
        mouthBottomCenter := some (150, 220), mouthCenter := some (150, 210) } =
      (JSNum.num 123, JSNum.num 456) :=
  C8_zero_intensity_identity jsMathModel _ _ 123 456 rfl
